import Mathlib

/-!
A shallow embedding of the inventory/POS core of the telegram-inventory-bot
repository: the data model (apps/inventory/models.py, apps/pos/models.py)
and the service layer (apps/inventory/services.py, apps/pos/services.py),
together with theorems settling the specification claims about them.

Monetary amounts and stock quantities are Django `DecimalField`s (exact
decimal arithmetic); they are embedded as rationals (`ℚ`).  Database rows
are embedded as lists of records, primary-key/foreign-key lookups as list
searches, and `@transaction.atomic` as an `Except` computation whose error
outcome leaves the database state unchanged (rollback).
-/

set_option maxRecDepth 100000

namespace InventoryBot

/-- apps/inventory/models.py `Product`: name, category, location FK, price,
unit, is_active.  Category and unit play no role in the service logic and
are omitted; the primary key is `id`. -/
structure Product where
  id : Nat
  name : String
  locationId : Nat
  price : ℚ
  isActive : Bool
deriving Repr, DecidableEq

/-- apps/inventory/models.py `StorageStock`: one row per product,
quantity plus optional last purchase price. -/
structure StorageStock where
  productId : Nat
  locationId : Nat
  quantity : ℚ
  lastPurchasePrice : Option ℚ
deriving Repr, DecidableEq

/-- apps/inventory/models.py `DisplayStock`. -/
structure DisplayStock where
  productId : Nat
  locationId : Nat
  quantity : ℚ
deriving Repr, DecidableEq

/-- apps/inventory/models.py `PurchaseTransaction` (immutable record). -/
structure PurchaseTransaction where
  productId : Nat
  locationId : Nat
  quantity : ℚ
  purchasePrice : ℚ
  totalCost : ℚ
  supplier : String
deriving Repr, DecidableEq

/-- apps/inventory/models.py `TransferTransaction` (immutable record). -/
structure TransferTransaction where
  productId : Nat
  locationId : Nat
  quantity : ℚ
deriving Repr, DecidableEq

/-- apps/pos/models.py `Shift`.  The staff foreign key is embedded by the
staff member's full name (the only staff attribute the services read). -/
structure Shift where
  id : Nat
  staffName : String
  locationId : Nat
  isClosed : Bool
  closedAt : Option Nat
  totalSales : ℚ
  totalCash : ℚ
  totalCard : ℚ
  totalTransfer : ℚ
  notes : String
deriving Repr, DecidableEq

/-- apps/pos/models.py `Transaction.TransactionType`. -/
inductive TransactionType where
  | SALE
  | REFUND
  | ADJUSTMENT
  | WRITEOFF
deriving Repr, DecidableEq, BEq

/-- apps/pos/models.py `Payment.PaymentMethod`. -/
inductive PaymentMethod where
  | CASH
  | CARD
  | TRANSFER
deriving Repr, DecidableEq, BEq

/-- apps/pos/models.py `Transaction` (append-only ledger row). -/
structure Txn where
  id : Nat
  shiftId : Nat
  productId : Nat
  ttype : TransactionType
  qty : ℚ
  amount : ℚ
  notes : String
deriving Repr, DecidableEq

/-- apps/pos/models.py `Payment`, linked to a `Transaction` row. -/
structure Payment where
  txnId : Nat
  method : PaymentMethod
  amount : ℚ
deriving Repr, DecidableEq

/-- apps/pos/models.py `StockCount` snapshot row created on shift close. -/
structure StockCount where
  shiftId : Nat
  productId : Nat
  quantity : ℚ
deriving Repr, DecidableEq

/-- The database state the services read and write: one list per table,
plus counters for the next auto-generated primary keys. -/
structure DB where
  products : List Product
  storage : List StorageStock
  display : List DisplayStock
  shifts : List Shift
  txns : List Txn
  payments : List Payment
  purchases : List PurchaseTransaction
  transfers : List TransferTransaction
  stockCounts : List StockCount
  nextTxnId : Nat
  nextShiftId : Nat
deriving Repr, DecidableEq

/-- The errors the services raise.  `ValidationError` instances are
distinguished by their payload (the data interpolated into the message);
`notFound` embeds `Product.DoesNotExist` from a failed `.get(pk=...)`;
`attributeNoUpdateStock` embeds the Python `AttributeError` raised by the
calls `product.update_stock(...)` in apps/pos/services.py, because the
`Product` model (apps/inventory/models.py) defines no `update_stock`
method. -/
inductive Err where
  | shiftClosed
  | locationMismatch
  | productInactive
  | invalidQuantity
  | invalidPrice
  | zeroQuantity
  | insufficientStock (available : ℚ)
  | shiftAlreadyOpen (staffName : String)
  | shiftAlreadyClosed
  | notFound
  | attributeNoUpdateStock
deriving Repr, DecidableEq

instance {ε α : Type} [DecidableEq ε] [DecidableEq α] :
    DecidableEq (Except ε α) := fun x y =>
  match x, y with
  | Except.ok a, Except.ok b =>
    if h : a = b then isTrue (by rw [h])
    else isFalse (fun hc => h (Except.ok.inj hc))
  | Except.error a, Except.error b =>
    if h : a = b then isTrue (by rw [h])
    else isFalse (fun hc => h (Except.error.inj hc))
  | Except.ok _, Except.error _ => isFalse (fun hc => Except.noConfusion hc)
  | Except.error _, Except.ok _ => isFalse (fun hc => Except.noConfusion hc)

instance : LawfulBEq PaymentMethod where
  eq_of_beq := by
    intro a b h
    cases a <;> cases b <;> first | rfl | exact absurd h (by decide)
  rfl := by
    intro a
    cases a <;> rfl

instance : LawfulBEq TransactionType where
  eq_of_beq := by
    intro a b h
    cases a <;> cases b <;> first | rfl | exact absurd h (by decide)
  rfl := by
    intro a
    cases a <;> rfl

/-- `@transaction.atomic`: an operation that errors is rolled back, leaving
the database unchanged; an operation that returns commits its new state. -/
def commit (db : DB) : Except Err DB → DB
  | Except.ok db' => db'
  | Except.error _ => db

/-- First storage row for (product, location), as `.filter(...).first()` /
`.get(...)` would fetch it. -/
def findStorage (db : DB) (pid loc : Nat) : Option StorageStock :=
  db.storage.find? (fun s => s.productId == pid && s.locationId == loc)

/-- First display row for (product, location). -/
def findDisplay (db : DB) (pid loc : Nat) : Option DisplayStock :=
  db.display.find? (fun d => d.productId == pid && d.locationId == loc)

/-- Storage quantity visible for (product, location); `0` when the row does
not exist (the `get_or_create` default). -/
def storageQty (db : DB) (pid loc : Nat) : ℚ :=
  match findStorage db pid loc with
  | some s => s.quantity
  | none => 0

/-- Display quantity visible for (product, location); `0` when the row does
not exist. -/
def displayQty (db : DB) (pid loc : Nat) : ℚ :=
  match findDisplay db pid loc with
  | some d => d.quantity
  | none => 0

/-- apps/inventory/models.py `Product.stock_quantity` property: the sum of
the product's StorageStock and DisplayStock quantities (each `0` when the
related row is absent).  The related rows are keyed by the product's own
location, matching the auto-creation in `Product.save`. -/
def stockQuantity (db : DB) (p : Product) : ℚ :=
  storageQty db p.id p.locationId + displayQty db p.id p.locationId

/-- `StorageStock.objects.get_or_create(product=.., location=.., defaults
={'quantity': 0})`: returns the existing row, or appends a fresh zero row. -/
def getOrCreateStorage (db : DB) (pid loc : Nat) : StorageStock × DB :=
  match findStorage db pid loc with
  | some s => (s, db)
  | none =>
    let s : StorageStock := ⟨pid, loc, 0, none⟩
    (s, { db with storage := db.storage ++ [s] })

/-- `DisplayStock.objects.get_or_create(...)` with a zero default. -/
def getOrCreateDisplay (db : DB) (pid loc : Nat) : DisplayStock × DB :=
  match findDisplay db pid loc with
  | some d => (d, db)
  | none =>
    let d : DisplayStock := ⟨pid, loc, 0⟩
    (d, { db with display := db.display ++ [d] })

/-- Save a modification `f` on the first row matching `key` — the row a
`.get(...)` / `get_or_create` fetch returns (unique in practice, by the
one-to-one constraints) — leaving every other row unchanged: the effect of
`obj.save()` on a fetched row. -/
def updFirst {α : Type} (key : α → Bool) (f : α → α) : List α → List α
  | [] => []
  | x :: rest => if key x then f x :: rest else x :: updFirst key f rest

/-- `StorageStock.update_quantity(delta)`: `quantity = F('quantity') +
delta` saved on the fetched row keyed by (product, location). -/
def updStorageQty (l : List StorageStock) (pid loc : Nat) (delta : ℚ) :
    List StorageStock :=
  updFirst (fun s => s.productId == pid && s.locationId == loc)
    (fun s => { s with quantity := s.quantity + delta }) l

/-- `DisplayStock.update_quantity(delta)` on the fetched row. -/
def updDisplayQty (l : List DisplayStock) (pid loc : Nat) (delta : ℚ) :
    List DisplayStock :=
  updFirst (fun d => d.productId == pid && d.locationId == loc)
    (fun d => { d with quantity := d.quantity + delta }) l

/-- `storage_stock.last_purchase_price = purchase_price` followed by
`save(update_fields=['last_purchase_price'])` on the fetched row. -/
def setLastPurchasePrice (l : List StorageStock) (pid loc : Nat) (price : ℚ) :
    List StorageStock :=
  updFirst (fun s => s.productId == pid && s.locationId == loc)
    (fun s => { s with lastPurchasePrice := some price }) l

/-- List-level storage quantity for a key (0 when the row is absent). -/
def sQty (l : List StorageStock) (pid loc : Nat) : ℚ :=
  match l.find? (fun s => s.productId == pid && s.locationId == loc) with
  | some s => s.quantity
  | none => 0

/-- List-level display quantity for a key (0 when the row is absent). -/
def dQty (l : List DisplayStock) (pid loc : Nat) : ℚ :=
  match l.find? (fun d => d.productId == pid && d.locationId == loc) with
  | some d => d.quantity
  | none => 0

/-- The call `product.update_stock(delta)` that ends each of `create_sale`,
`create_refund` and `create_adjustment` in apps/pos/services.py.  The
`Product` model defines no method named `update_stock`, so the attribute
lookup raises `AttributeError` regardless of the arguments, and the
surrounding `@transaction.atomic` block rolls back. -/
def productUpdateStock (_db : DB) (_pid : Nat) (_delta : ℚ) : Except Err DB :=
  Except.error Err.attributeNoUpdateStock

/-- apps/inventory/services.py `InventoryService.purchase`. -/
def purchase (db : DB) (product : Product) (loc : Nat) (quantity price : ℚ)
    (supplier : String) : Except Err DB :=
  if quantity ≤ 0 then Except.error Err.invalidQuantity
  else if price < 0 then Except.error Err.invalidPrice
  else
    let db1 := (getOrCreateStorage db product.id loc).2
    let rec1 : PurchaseTransaction :=
      ⟨product.id, loc, quantity, price, quantity * price, supplier⟩
    let db2 := { db1 with purchases := db1.purchases ++ [rec1] }
    let db3 := { db2 with storage := updStorageQty db2.storage product.id loc quantity }
    let db4 := { db3 with storage := setLastPurchasePrice db3.storage product.id loc price }
    Except.ok db4

/-- apps/inventory/services.py `InventoryService.transfer`
(storage → display). -/
def transfer (db : DB) (product : Product) (loc : Nat) (quantity : ℚ) :
    Except Err DB :=
  if quantity ≤ 0 then Except.error Err.invalidQuantity
  else
    let ss := (getOrCreateStorage db product.id loc).1
    let db1 := (getOrCreateStorage db product.id loc).2
    if ss.quantity < quantity then
      Except.error (Err.insufficientStock ss.quantity)
    else
      let db2 := (getOrCreateDisplay db1 product.id loc).2
      let rec1 : TransferTransaction := ⟨product.id, loc, quantity⟩
      let db3 := { db2 with transfers := db2.transfers ++ [rec1] }
      let db4 := { db3 with storage := updStorageQty db3.storage product.id loc (-quantity) }
      let db5 := { db4 with display := updDisplayQty db4.display product.id loc quantity }
      Except.ok db5

/-- apps/pos/services.py `ShiftService.start_shift`. -/
def startShift (db : DB) (staffName : String) (loc : Nat) (notes : String) :
    Except Err DB :=
  match db.shifts.find? (fun s => s.locationId == loc && s.isClosed == false) with
  | some existing => Except.error (Err.shiftAlreadyOpen existing.staffName)
  | none =>
    let shift : Shift :=
      ⟨db.nextShiftId, staffName, loc, false, none, 0, 0, 0, 0, notes⟩
    Except.ok { db with shifts := db.shifts ++ [shift],
                        nextShiftId := db.nextShiftId + 1 }

/-- The SALE transactions of a shift, as `shift.transactions.filter(
transaction_type=SALE)` fetches them. -/
def saleTxnsOf (db : DB) (shiftId : Nat) : List Txn :=
  db.txns.filter (fun t => t.shiftId == shiftId && t.ttype == TransactionType.SALE)

/-- The REFUND transactions of a shift. -/
def refundTxnsOf (db : DB) (shiftId : Nat) : List Txn :=
  db.txns.filter (fun t => t.shiftId == shiftId && t.ttype == TransactionType.REFUND)

/-- `trans.payments.all()`: the payments linked to one transaction row. -/
def paymentsOf (db : DB) (txnId : Nat) : List Payment :=
  db.payments.filter (fun p => p.txnId == txnId)

/-- The inner loop of the payment-method totals: fold one transaction's
payments into the (cash, card, transfer) accumulator, adding when
`sign = true` and subtracting when `sign = false` (the subtracting form is
the refund loop of `get_shift_summary`). -/
def payLoop (sign : Bool) (ps : List Payment) (acc : ℚ × ℚ × ℚ) : ℚ × ℚ × ℚ :=
  ps.foldl (fun a p =>
    let v : ℚ := if sign then p.amount else -p.amount
    match p.method with
    | PaymentMethod.CASH => (a.1 + v, a.2.1, a.2.2)
    | PaymentMethod.CARD => (a.1, a.2.1 + v, a.2.2)
    | PaymentMethod.TRANSFER => (a.1, a.2.1, a.2.2 + v)) acc

/-- The outer loop over a list of transactions (`for trans in transactions:
for payment in trans.payments.all(): ...`). -/
def txnPayLoop (db : DB) (sign : Bool) (ts : List Txn) (acc : ℚ × ℚ × ℚ) :
    ℚ × ℚ × ℚ :=
  ts.foldl (fun a t => payLoop sign (paymentsOf db t.id) a) acc

/-- `StockCount.objects.create(...)` for each provided (product_id, qty)
in turn, skipping ids with no matching product (`Product.DoesNotExist` is
passed). -/
def createStockCounts (db : DB) (shiftId : Nat) : List (Nat × ℚ) → DB
  | [] => db
  | c :: rest =>
    match db.products.find? (fun p => p.id == c.1) with
    | some _ =>
      createStockCounts
        { db with stockCounts := db.stockCounts ++ [⟨shiftId, c.1, c.2⟩] }
        shiftId rest
    | none => createStockCounts db shiftId rest

/-- apps/pos/services.py `ShiftService.close_shift`.  `now` stands for
`timezone.now()`; `stockCounts` for the optional `stock_counts` dict
(the empty list embeds `None`). -/
def closeShift (db : DB) (shift : Shift) (now : Nat)
    (stockCounts : List (Nat × ℚ)) : Except Err DB :=
  if shift.isClosed then Except.error Err.shiftAlreadyClosed
  else
    let transactions := saleTxnsOf db shift.id
    let totalSales := (transactions.map (fun t => t.amount)).sum
    let totals := txnPayLoop db true transactions (0, 0, 0)
    let closed : Shift :=
      { shift with isClosed := true, closedAt := some now,
                   totalSales := totalSales, totalCash := totals.1,
                   totalCard := totals.2.1, totalTransfer := totals.2.2 }
    let db1 := { db with shifts := db.shifts.map (fun s => if s.id == shift.id then closed else s) }
    Except.ok (createStockCounts db1 shift.id stockCounts)

/-- The state inside `create_sale`'s atomic block right after the
`Transaction.objects.create(...)` and `Payment.objects.create(...)` calls,
immediately before `product.update_stock(-qty)`:  one SALE transaction row
with `amount = p2.price * qty` and one payment row with the same amount. -/
def salePrepared (db : DB) (shift : Shift) (p2 : Product) (qty : ℚ)
    (method : PaymentMethod) (notes : String) : DB :=
  let amount := p2.price * qty
  let trans : Txn :=
    ⟨db.nextTxnId, shift.id, p2.id, TransactionType.SALE, qty, amount, notes⟩
  let db1 := { db with txns := db.txns ++ [trans], nextTxnId := db.nextTxnId + 1 }
  { db1 with payments := db1.payments ++ [⟨trans.id, method, amount⟩] }

/-- apps/pos/services.py `TransactionService.create_sale`.  The guard
checks read the `shift` and `product` arguments as passed; the stock check
and the amount read the re-fetched product row
(`Product.objects.select_for_update().get(pk=product.pk)`). -/
def createSale (db : DB) (shift : Shift) (product : Product) (qty : ℚ)
    (method : PaymentMethod) (notes : String) : Except Err DB :=
  if shift.isClosed then Except.error Err.shiftClosed
  else if shift.locationId ≠ product.locationId then Except.error Err.locationMismatch
  else if product.isActive = false then Except.error Err.productInactive
  else if qty ≤ 0 then Except.error Err.invalidQuantity
  else
    match db.products.find? (fun p => p.id == product.id) with
    | none => Except.error Err.notFound
    | some p2 =>
      if stockQuantity db p2 < qty then
        Except.error (Err.insufficientStock (stockQuantity db p2))
      else
        productUpdateStock (salePrepared db shift p2 qty method notes) p2.id (-qty)

/-- The state inside `create_refund`'s atomic block right after the
transaction and payment inserts, immediately before
`product.update_stock(qty)`. -/
def refundPrepared (db : DB) (shift : Shift) (p2 : Product) (qty : ℚ)
    (method : PaymentMethod) (notes : String) : DB :=
  let amount := p2.price * qty
  let trans : Txn :=
    ⟨db.nextTxnId, shift.id, p2.id, TransactionType.REFUND, qty, amount, notes⟩
  let db1 := { db with txns := db.txns ++ [trans], nextTxnId := db.nextTxnId + 1 }
  { db1 with payments := db1.payments ++ [⟨trans.id, method, amount⟩] }

/-- apps/pos/services.py `TransactionService.create_refund`.  The payment
row is created with the same (positive) `amount = p2.price * qty` that the
transaction row carries; the source comment says "negative for refund" but
the value passed is `amount` itself. -/
def createRefund (db : DB) (shift : Shift) (product : Product) (qty : ℚ)
    (method : PaymentMethod) (notes : String) : Except Err DB :=
  if shift.isClosed then Except.error Err.shiftClosed
  else if qty ≤ 0 then Except.error Err.invalidQuantity
  else
    match db.products.find? (fun p => p.id == product.id) with
    | none => Except.error Err.notFound
    | some p2 =>
      productUpdateStock (refundPrepared db shift p2 qty method notes) p2.id qty

/-- The state inside `create_adjustment`'s atomic block right after the
transaction insert (`qty=abs(qty)`, `amount=0`, no payment row),
immediately before `product.update_stock(qty)`. -/
def adjustPrepared (db : DB) (shift : Shift) (p2 : Product) (qty : ℚ)
    (notes : String) : DB :=
  let trans : Txn :=
    ⟨db.nextTxnId, shift.id, p2.id, TransactionType.ADJUSTMENT, |qty|, 0, notes⟩
  { db with txns := db.txns ++ [trans], nextTxnId := db.nextTxnId + 1 }

/-- apps/pos/services.py `TransactionService.create_adjustment`. -/
def createAdjustment (db : DB) (shift : Shift) (product : Product) (qty : ℚ)
    (notes : String) : Except Err DB :=
  if shift.isClosed then Except.error Err.shiftClosed
  else if qty = 0 then Except.error Err.zeroQuantity
  else
    match db.products.find? (fun p => p.id == product.id) with
    | none => Except.error Err.notFound
    | some p2 =>
      productUpdateStock (adjustPrepared db shift p2 qty notes) p2.id qty

/-- The dict returned by `ReportService.get_shift_summary` (the per-product
groupings are kept as association lists in python dict insertion order). -/
structure ShiftSummary where
  salesCount : Nat
  salesTotal : ℚ
  refundsCount : Nat
  refundsTotal : ℚ
  netTotal : ℚ
  totalCash : ℚ
  totalCard : ℚ
  totalTransfer : ℚ
  productSummary : List (String × ℚ × ℚ)
  refundSummary : List (String × ℚ × ℚ)
deriving Repr, DecidableEq

/-- `product_summary[name]['qty'] += qty; ...['amount'] += amount` on a
dict embedded as an association list (a missing key is inserted at the
end, as python dicts do). -/
def bumpEntry : List (String × ℚ × ℚ) → String → ℚ → ℚ → List (String × ℚ × ℚ)
  | [], name, q, a => [(name, q, a)]
  | e :: rest, name, q, a =>
    if e.1 = name then (e.1, e.2.1 + q, e.2.2 + a) :: rest
    else e :: bumpEntry rest name q a

/-- `trans.product.name` (FK lookup; empty string for a dangling key,
which the schema forbids). -/
def productNameOf (db : DB) (pid : Nat) : String :=
  match db.products.find? (fun p => p.id == pid) with
  | some p => p.name
  | none => ""

/-- The per-product grouping loops of `get_shift_summary`. -/
def groupByProduct (db : DB) (ts : List Txn) : List (String × ℚ × ℚ) :=
  ts.foldl (fun acc t => bumpEntry acc (productNameOf db t.productId) t.qty t.amount) []

/-- apps/pos/services.py `ReportService.get_shift_summary`. -/
def getShiftSummary (db : DB) (shift : Shift) : ShiftSummary :=
  let sales := saleTxnsOf db shift.id
  let refunds := refundTxnsOf db shift.id
  let salesTotal := (sales.map (fun t => t.amount)).sum
  let refundsTotal := (refunds.map (fun t => t.amount)).sum
  let afterSales := txnPayLoop db true sales (0, 0, 0)
  let afterRefunds := txnPayLoop db false refunds afterSales
  { salesCount := sales.length
    salesTotal := salesTotal
    refundsCount := refunds.length
    refundsTotal := refundsTotal
    netTotal := salesTotal - refundsTotal
    totalCash := afterRefunds.1
    totalCard := afterRefunds.2.1
    totalTransfer := afterRefunds.2.2
    productSummary := groupByProduct db sales
    refundSummary := groupByProduct db refunds }

/-- The sign with which one accumulation loop counts payment amounts:
`+1` for the sale loops, `−1` for the refund loop of `get_shift_summary`. -/
def signFactor (sign : Bool) : ℚ := if sign then 1 else -1

/-- Declarative companion of the inner loop: the sum of the amounts of the
payments with method `m` in `ps`. -/
def methodAmt (ps : List Payment) (m : PaymentMethod) : ℚ :=
  ((ps.filter (fun p => p.method == m)).map (fun p => p.amount)).sum

/-- Declarative companion of the payment-method accumulation loops: the sum
of the amounts of the payments with method `m` attached to the transaction
rows `ts`. -/
def methodSum (db : DB) (ts : List Txn) (m : PaymentMethod) : ℚ :=
  (ts.map (fun t => methodAmt (paymentsOf db t.id) m)).sum

/-- The service operations, as one step alphabet for the state-machine
theorems (each constructor carries the arguments of one service call). -/
inductive Op where
  | purchaseOp (product : Product) (loc : Nat) (quantity price : ℚ) (supplier : String)
  | transferOp (product : Product) (loc : Nat) (quantity : ℚ)
  | saleOp (shift : Shift) (product : Product) (qty : ℚ) (m : PaymentMethod) (notes : String)
  | refundOp (shift : Shift) (product : Product) (qty : ℚ) (m : PaymentMethod) (notes : String)
  | adjustOp (shift : Shift) (product : Product) (qty : ℚ) (notes : String)
  | startOp (staffName : String) (loc : Nat) (notes : String)
  | closeOp (shift : Shift) (now : Nat) (stockCounts : List (Nat × ℚ))

/-- Dispatch one operation to its service function. -/
def runOp (op : Op) (db : DB) : Except Err DB :=
  match op with
  | Op.purchaseOp product loc q price supplier => purchase db product loc q price supplier
  | Op.transferOp product loc q => transfer db product loc q
  | Op.saleOp shift product q m notes => createSale db shift product q m notes
  | Op.refundOp shift product q m notes => createRefund db shift product q m notes
  | Op.adjustOp shift product q notes => createAdjustment db shift product q notes
  | Op.startOp staffName loc notes => startShift db staffName loc notes
  | Op.closeOp shift now counts => closeShift db shift now counts

/-- Run one operation inside its transaction: commit on success, roll back
on error. -/
def step (db : DB) (op : Op) : DB := commit db (runOp op db)

/-- Run a sequence of operations. -/
def runOps (db : DB) (ops : List Op) : DB := ops.foldl step db

/-- The non-closed shifts of one location
(`Shift.objects.filter(location=..., is_closed=False)`). -/
def openShiftsAt (db : DB) (loc : Nat) : List Shift :=
  db.shifts.filter (fun s => s.locationId == loc && s.isClosed == false)

/-- The §3 invariant: at most one non-closed shift per location. -/
def atMostOneOpenShift (db : DB) : Prop :=
  ∀ loc : Nat, (openShiftsAt db loc).length ≤ 1

/-- The §8 invariant: every storage row and every display row carries a
non-negative quantity. -/
def nonnegStocks (db : DB) : Prop :=
  (∀ s ∈ db.storage, 0 ≤ s.quantity) ∧ (∀ d ∈ db.display, 0 ≤ d.quantity)

/-- StorageStock + DisplayStock visible for one (product, location). -/
def totalStock (db : DB) (pid loc : Nat) : ℚ :=
  storageQty db pid loc + displayQty db pid loc

/-- The signed quantity one operation contributes to the conservation
ledger of (pid, loc): successful purchases and refunds count +qty, sales
−qty, adjustments their signed qty; transfers and shift operations count
0; a failed operation contributes 0. -/
def opLedgerDelta (db : DB) (pid loc : Nat) (op : Op) : ℚ :=
  match runOp op db with
  | Except.error _ => 0
  | Except.ok _ =>
    match op with
    | Op.purchaseOp product l q _ _ =>
      if product.id = pid ∧ l = loc then q else 0
    | Op.saleOp _ product q _ _ =>
      if product.id = pid ∧ product.locationId = loc then -q else 0
    | Op.refundOp _ product q _ _ =>
      if product.id = pid ∧ product.locationId = loc then q else 0
    | Op.adjustOp _ product q _ =>
      if product.id = pid ∧ product.locationId = loc then q else 0
    | _ => 0

/-- The conservation ledger of a whole operation sequence, each delta taken
at the state the operation actually ran in. -/
def ledgerSum (db : DB) (pid loc : Nat) : List Op → ℚ
  | [] => 0
  | op :: rest => opLedgerDelta db pid loc op + ledgerSum (step db op) pid loc rest

/-! ## Concrete states used by the claim theorems -/

/-- An open shift at location 1 held by staff member Anna. -/
def annaShift : Shift := ⟨1, "Anna", 1, false, none, 0, 0, 0, 0, ""⟩

/-- An active product of location 1, unit price 500. -/
def beer : Product := ⟨1, "Beer", 1, 500, true⟩

/-- State with storage 3.00 and display 2.00 for the product: five units of
total stock, only two of them on display. -/
def splitStockDB : DB :=
  { products := [beer], storage := [⟨1, 1, 3, none⟩], display := [⟨1, 1, 2⟩],
    shifts := [annaShift], txns := [], payments := [], purchases := [],
    transfers := [], stockCounts := [], nextTxnId := 1, nextShiftId := 2 }

/-- State mirroring the repository's own test fixture (`pos/tests.py`):
one hundred units of stock, all in storage. -/
def beerTestDB : DB :=
  { products := [beer], storage := [⟨1, 1, 100, none⟩], display := [],
    shifts := [annaShift], txns := [], payments := [], purchases := [],
    transfers := [], stockCounts := [], nextTxnId := 1, nextShiftId := 2 }

/-- A state with the location free of shifts (ten units in storage). -/
def noShiftDB : DB :=
  { products := [beer], storage := [⟨1, 1, 10, none⟩], display := [],
    shifts := [], txns := [], payments := [], purchases := [],
    transfers := [], stockCounts := [], nextTxnId := 1, nextShiftId := 1 }

/-- Scenario E of the spec, as stored rows: one SALE of qty 2 at price 500
paid CASH and one REFUND of qty 1 at price 500 paid CASH, on Anna's shift. -/
def scenarioEDB : DB :=
  { products := [beer], storage := [], display := [], shifts := [annaShift],
    txns := [⟨1, 1, 1, TransactionType.SALE, 2, 1000, ""⟩,
             ⟨2, 1, 1, TransactionType.REFUND, 1, 500, ""⟩],
    payments := [⟨1, PaymentMethod.CASH, 1000⟩, ⟨2, PaymentMethod.CASH, 500⟩],
    purchases := [], transfers := [], stockCounts := [],
    nextTxnId := 3, nextShiftId := 2 }

/-- An already-closed shift at location 1 (id 2). -/
def closedAnna : Shift := ⟨2, "Anna", 1, true, some 3, 0, 0, 0, 0, ""⟩

/-- A catalog state with no stock rows at all for the product. -/
def zeroStockDB : DB :=
  { products := [beer], storage := [], display := [], shifts := [annaShift],
    txns := [], payments := [], purchases := [], transfers := [],
    stockCounts := [], nextTxnId := 1, nextShiftId := 2 }

/-! ## Reduction lemmas for the POS mutations -/

theorem createSale_stock_branch (db : DB) (shift : Shift) (product : Product)
    (qty : ℚ) (m : PaymentMethod) (notes : String)
    (hopen : shift.isClosed = false)
    (hloc : shift.locationId = product.locationId)
    (hact : product.isActive = true)
    (hq : 0 < qty)
    (hfind : db.products.find? (fun p => p.id == product.id) = some product) :
    createSale db shift product qty m notes =
      if stockQuantity db product < qty then
        Except.error (Err.insufficientStock (stockQuantity db product))
      else Except.error Err.attributeNoUpdateStock := by
  unfold createSale
  rw [hopen, hfind]
  simp only [Bool.false_eq_true, if_false, hloc, ne_eq, not_true_eq_false,
    hact, Bool.true_eq_false, not_le.mpr hq, productUpdateStock]

theorem createRefund_reduce (db : DB) (shift : Shift) (product : Product)
    (qty : ℚ) (m : PaymentMethod) (notes : String)
    (hopen : shift.isClosed = false)
    (hq : 0 < qty)
    (hfind : db.products.find? (fun p => p.id == product.id) = some product) :
    createRefund db shift product qty m notes =
      Except.error Err.attributeNoUpdateStock := by
  unfold createRefund
  rw [hopen, hfind]
  simp only [Bool.false_eq_true, if_false, not_le.mpr hq, productUpdateStock]

theorem createAdjustment_reduce (db : DB) (shift : Shift) (product : Product)
    (qty : ℚ) (notes : String)
    (hopen : shift.isClosed = false)
    (hq : qty ≠ 0)
    (hfind : db.products.find? (fun p => p.id == product.id) = some product) :
    createAdjustment db shift product qty notes =
      Except.error Err.attributeNoUpdateStock := by
  unfold createAdjustment
  rw [hopen, hfind]
  simp only [Bool.false_eq_true, if_false, hq, productUpdateStock]

theorem commit_error (db : DB) (e : Err) :
    commit db (Except.error e) = db := rfl

theorem commit_ok (db db' : DB) :
    commit db (Except.ok db') = db' := rfl

theorem createSale_isError (db : DB) (shift : Shift) (product : Product)
    (qty : ℚ) (m : PaymentMethod) (notes : String) :
    ∃ e, createSale db shift product qty m notes = Except.error e := by
  unfold createSale
  repeat' split
  all_goals exact ⟨_, rfl⟩

theorem createRefund_isError (db : DB) (shift : Shift) (product : Product)
    (qty : ℚ) (m : PaymentMethod) (notes : String) :
    ∃ e, createRefund db shift product qty m notes = Except.error e := by
  unfold createRefund
  repeat' split
  all_goals exact ⟨_, rfl⟩

theorem createAdjustment_isError (db : DB) (shift : Shift) (product : Product)
    (qty : ℚ) (notes : String) :
    ∃ e, createAdjustment db shift product qty notes = Except.error e := by
  unfold createAdjustment
  repeat' split
  all_goals exact ⟨_, rfl⟩

theorem commit_of_isError (db : DB) (r : Except Err DB)
    (h : ∃ e, r = Except.error e) : commit db r = db := by
  obtain ⟨e, he⟩ := h
  rw [he]
  rfl

/-- `create_stock_counts` only appends StockCount rows: every other table
is untouched. -/
theorem createStockCounts_tables (db : DB) (sid : Nat)
    (counts : List (Nat × ℚ)) :
    (createStockCounts db sid counts).shifts = db.shifts ∧
    (createStockCounts db sid counts).storage = db.storage ∧
    (createStockCounts db sid counts).display = db.display ∧
    (createStockCounts db sid counts).txns = db.txns ∧
    (createStockCounts db sid counts).payments = db.payments := by
  induction counts generalizing db with
  | nil => exact ⟨rfl, rfl, rfl, rfl, rfl⟩
  | cons c rest ih =>
    cases hf : db.products.find? (fun p => p.id == c.1) with
    | some p =>
      simp only [createStockCounts, hf]
      exact ih { db with stockCounts := db.stockCounts ++ [⟨sid, c.1, c.2⟩] }
    | none =>
      simp only [createStockCounts, hf]
      exact ih db

/-- The state returned by `getOrCreateStorage` differs from the input at
most in the storage table. -/
theorem getOrCreateStorage_snd (db : DB) (pid loc : Nat) :
    ((getOrCreateStorage db pid loc).2).products = db.products ∧
    ((getOrCreateStorage db pid loc).2).display = db.display ∧
    ((getOrCreateStorage db pid loc).2).shifts = db.shifts ∧
    ((getOrCreateStorage db pid loc).2).txns = db.txns ∧
    ((getOrCreateStorage db pid loc).2).payments = db.payments ∧
    ((getOrCreateStorage db pid loc).2).purchases = db.purchases ∧
    ((getOrCreateStorage db pid loc).2).transfers = db.transfers := by
  unfold getOrCreateStorage
  split <;> simp

/-- The state returned by `getOrCreateDisplay` differs from the input at
most in the display table. -/
theorem getOrCreateDisplay_snd (db : DB) (pid loc : Nat) :
    ((getOrCreateDisplay db pid loc).2).products = db.products ∧
    ((getOrCreateDisplay db pid loc).2).storage = db.storage ∧
    ((getOrCreateDisplay db pid loc).2).shifts = db.shifts ∧
    ((getOrCreateDisplay db pid loc).2).txns = db.txns ∧
    ((getOrCreateDisplay db pid loc).2).payments = db.payments ∧
    ((getOrCreateDisplay db pid loc).2).purchases = db.purchases ∧
    ((getOrCreateDisplay db pid loc).2).transfers = db.transfers := by
  unfold getOrCreateDisplay
  split <;> simp

theorem storageQty_eq_sQty (db : DB) (pid loc : Nat) :
    storageQty db pid loc = sQty db.storage pid loc := rfl

theorem displayQty_eq_dQty (db : DB) (pid loc : Nat) :
    displayQty db pid loc = dQty db.display pid loc := rfl

theorem find?_updFirst_self {α : Type} (key : α → Bool) (f : α → α)
    (l : List α) (hf : ∀ x, key (f x) = key x) :
    (updFirst key f l).find? key = (l.find? key).map f := by
  induction l with
  | nil => rfl
  | cons a t ih =>
    by_cases hka : key a = true
    · rw [updFirst, if_pos hka, List.find?_cons_of_pos _ (by rw [hf]; exact hka),
        List.find?_cons_of_pos _ hka]
      rfl
    · rw [updFirst, if_neg hka, List.find?_cons_of_neg _ (by simpa using hka),
        List.find?_cons_of_neg _ (by simpa using hka), ih]

theorem find?_updFirst_other {α : Type} (key p : α → Bool) (f : α → α)
    (l : List α) (hdisj : ∀ x, key x = true → p x = false)
    (hp : ∀ x, p (f x) = p x) :
    (updFirst key f l).find? p = l.find? p := by
  induction l with
  | nil => rfl
  | cons a t ih =>
    by_cases hka : key a = true
    · have hpa : p a = false := hdisj a hka
      have hpfa : p (f a) = false := by rw [hp]; exact hpa
      rw [updFirst, if_pos hka, List.find?_cons_of_neg _ (by simp [hpfa]),
        List.find?_cons_of_neg _ (by simp [hpa])]
    · rw [updFirst, if_neg hka]
      by_cases hpa : p a = true
      · rw [List.find?_cons_of_pos _ hpa, List.find?_cons_of_pos _ hpa]
      · rw [List.find?_cons_of_neg _ (by simpa using hpa),
          List.find?_cons_of_neg _ (by simpa using hpa), ih]

theorem mem_updFirst {α : Type} (key : α → Bool) (f : α → α) (l : List α)
    (x : α) (hx : x ∈ updFirst key f l) :
    x ∈ l ∨ ∃ y, l.find? key = some y ∧ x = f y := by
  induction l with
  | nil => simp [updFirst] at hx
  | cons a t ih =>
    by_cases hka : key a = true
    · rw [updFirst, if_pos hka] at hx
      rcases List.mem_cons.mp hx with h1 | h2
      · exact Or.inr ⟨a, List.find?_cons_of_pos t hka, h1⟩
      · exact Or.inl (List.mem_cons_of_mem a h2)
    · rw [updFirst, if_neg hka] at hx
      rcases List.mem_cons.mp hx with h1 | h2
      · exact Or.inl (h1 ▸ List.mem_cons_self a t)
      · rcases ih h2 with h3 | ⟨y, hy, hxy⟩
        · exact Or.inl (List.mem_cons_of_mem a h3)
        · refine Or.inr ⟨y, ?_, hxy⟩
          rw [List.find?_cons_of_neg _ (by simpa using hka)]
          exact hy

theorem sQty_updStorageQty_self (l : List StorageStock) (pid loc : Nat)
    (delta : ℚ) (r : StorageStock)
    (h : l.find? (fun s => s.productId == pid && s.locationId == loc) = some r) :
    sQty (updStorageQty l pid loc delta) pid loc = sQty l pid loc + delta := by
  unfold sQty updStorageQty
  rw [find?_updFirst_self _ _ _ (fun x => by simp), h]
  rfl

theorem sQty_updStorageQty_other (l : List StorageStock) (pid loc pid' loc' : Nat)
    (delta : ℚ) (hne : ¬(pid' = pid ∧ loc' = loc)) :
    sQty (updStorageQty l pid loc delta) pid' loc' = sQty l pid' loc' := by
  unfold sQty updStorageQty
  rw [find?_updFirst_other _ _ _ _ ?hdisj (fun x => by simp)]
  case hdisj =>
    intro x hx
    simp only [Bool.and_eq_true, beq_iff_eq] at hx
    rw [Bool.eq_false_iff]
    intro hcontra
    simp only [Bool.and_eq_true, beq_iff_eq] at hcontra
    exact hne ⟨hcontra.1.symm.trans hx.1, hcontra.2.symm.trans hx.2⟩

theorem dQty_updDisplayQty_self (l : List DisplayStock) (pid loc : Nat)
    (delta : ℚ) (r : DisplayStock)
    (h : l.find? (fun d => d.productId == pid && d.locationId == loc) = some r) :
    dQty (updDisplayQty l pid loc delta) pid loc = dQty l pid loc + delta := by
  unfold dQty updDisplayQty
  rw [find?_updFirst_self _ _ _ (fun x => by simp), h]
  rfl

theorem dQty_updDisplayQty_other (l : List DisplayStock) (pid loc pid' loc' : Nat)
    (delta : ℚ) (hne : ¬(pid' = pid ∧ loc' = loc)) :
    dQty (updDisplayQty l pid loc delta) pid' loc' = dQty l pid' loc' := by
  unfold dQty updDisplayQty
  rw [find?_updFirst_other _ _ _ _ ?hdisj (fun x => by simp)]
  case hdisj =>
    intro x hx
    simp only [Bool.and_eq_true, beq_iff_eq] at hx
    rw [Bool.eq_false_iff]
    intro hcontra
    simp only [Bool.and_eq_true, beq_iff_eq] at hcontra
    exact hne ⟨hcontra.1.symm.trans hx.1, hcontra.2.symm.trans hx.2⟩

theorem sQty_setLastPurchasePrice (l : List StorageStock) (pid loc : Nat)
    (price : ℚ) (pid' loc' : Nat) :
    sQty (setLastPurchasePrice l pid loc price) pid' loc' = sQty l pid' loc' := by
  by_cases h : pid' = pid ∧ loc' = loc
  · obtain ⟨h1, h2⟩ := h
    subst h1
    subst h2
    unfold sQty setLastPurchasePrice
    rw [find?_updFirst_self _ _ _ (fun x => by simp)]
    cases l.find? (fun s => s.productId == pid' && s.locationId == loc') <;> rfl
  · unfold sQty setLastPurchasePrice
    rw [find?_updFirst_other _ _ _ _ ?hdisj (fun x => by simp)]
    case hdisj =>
      intro x hx
      simp only [Bool.and_eq_true, beq_iff_eq] at hx
      rw [Bool.eq_false_iff]
      intro hcontra
      simp only [Bool.and_eq_true, beq_iff_eq] at hcontra
      exact h ⟨hcontra.1.symm.trans hx.1, hcontra.2.symm.trans hx.2⟩

theorem sQty_getOrCreateStorage (db : DB) (pid loc pid' loc' : Nat) :
    sQty ((getOrCreateStorage db pid loc).2).storage pid' loc' =
      sQty db.storage pid' loc' := by
  unfold getOrCreateStorage
  cases h : findStorage db pid loc with
  | some s => rfl
  | none =>
    have h' : db.storage.find?
        (fun s => s.productId == pid && s.locationId == loc) = none := h
    unfold sQty
    rw [List.find?_append]
    cases h2 : db.storage.find?
        (fun s => s.productId == pid' && s.locationId == loc') with
    | some s => rfl
    | none =>
      by_cases hrow : ((pid == pid') && (loc == loc')) = true
      · simp only [Bool.and_eq_true, beq_iff_eq] at hrow
        obtain ⟨e1, e2⟩ := hrow
        subst e1
        subst e2
        simp [Option.or, List.find?]
      · simp only [Option.or, List.find?]
        simp [hrow]

theorem dQty_getOrCreateDisplay (db : DB) (pid loc pid' loc' : Nat) :
    dQty ((getOrCreateDisplay db pid loc).2).display pid' loc' =
      dQty db.display pid' loc' := by
  unfold getOrCreateDisplay
  cases h : findDisplay db pid loc with
  | some d => rfl
  | none =>
    have h' : db.display.find?
        (fun d => d.productId == pid && d.locationId == loc) = none := h
    unfold dQty
    rw [List.find?_append]
    cases h2 : db.display.find?
        (fun d => d.productId == pid' && d.locationId == loc') with
    | some d => rfl
    | none =>
      by_cases hrow : ((pid == pid') && (loc == loc')) = true
      · simp only [Bool.and_eq_true, beq_iff_eq] at hrow
        obtain ⟨e1, e2⟩ := hrow
        subst e1
        subst e2
        simp [Option.or, List.find?]
      · simp only [Option.or, List.find?]
        simp [hrow]

theorem getOrCreateStorage_find (db : DB) (pid loc : Nat) :
    ((getOrCreateStorage db pid loc).2).storage.find?
        (fun s => s.productId == pid && s.locationId == loc) =
      some (getOrCreateStorage db pid loc).1 := by
  unfold getOrCreateStorage
  cases h : findStorage db pid loc with
  | some s => exact h
  | none =>
    have h' : db.storage.find?
        (fun s => s.productId == pid && s.locationId == loc) = none := h
    simp [List.find?_append, h', List.find?]

theorem getOrCreateDisplay_find (db : DB) (pid loc : Nat) :
    ((getOrCreateDisplay db pid loc).2).display.find?
        (fun d => d.productId == pid && d.locationId == loc) =
      some (getOrCreateDisplay db pid loc).1 := by
  unfold getOrCreateDisplay
  cases h : findDisplay db pid loc with
  | some d => exact h
  | none =>
    have h' : db.display.find?
        (fun d => d.productId == pid && d.locationId == loc) = none := h
    simp [List.find?_append, h', List.find?]

theorem getOrCreateStorage_fst_qty (db : DB) (pid loc : Nat) :
    (getOrCreateStorage db pid loc).1.quantity = sQty db.storage pid loc := by
  unfold getOrCreateStorage sQty
  cases h : findStorage db pid loc with
  | some s =>
    have h' : db.storage.find?
        (fun s => s.productId == pid && s.locationId == loc) = some s := h
    rw [h']
  | none =>
    have h' : db.storage.find?
        (fun s => s.productId == pid && s.locationId == loc) = none := h
    rw [h']

theorem mem_getOrCreateStorage (db : DB) (pid loc : Nat) (s : StorageStock)
    (hs : s ∈ ((getOrCreateStorage db pid loc).2).storage) :
    s ∈ db.storage ∨ s = ⟨pid, loc, 0, none⟩ := by
  unfold getOrCreateStorage at hs
  cases h : findStorage db pid loc with
  | some r =>
    rw [h] at hs
    exact Or.inl hs
  | none =>
    rw [h] at hs
    simp only [List.mem_append, List.mem_singleton] at hs
    exact hs

theorem mem_getOrCreateDisplay (db : DB) (pid loc : Nat) (d : DisplayStock)
    (hd : d ∈ ((getOrCreateDisplay db pid loc).2).display) :
    d ∈ db.display ∨ d = ⟨pid, loc, 0⟩ := by
  unfold getOrCreateDisplay at hd
  cases h : findDisplay db pid loc with
  | some r =>
    rw [h] at hd
    exact Or.inl hd
  | none =>
    rw [h] at hd
    simp only [List.mem_append, List.mem_singleton] at hd
    exact hd

/-- `purchase` never touches the shift, transaction or payment tables. -/
theorem purchase_tables (db : DB) (product : Product) (loc : Nat)
    (q price : ℚ) (supplier : String) :
    (commit db (purchase db product loc q price supplier)).shifts = db.shifts ∧
    (commit db (purchase db product loc q price supplier)).txns = db.txns ∧
    (commit db (purchase db product loc q price supplier)).payments = db.payments := by
  unfold purchase
  repeat' split
  all_goals simp [commit, getOrCreateStorage_snd db product.id loc]

/-- `transfer` never touches the shift, transaction or payment tables. -/
theorem transfer_tables (db : DB) (product : Product) (loc : Nat) (q : ℚ) :
    (commit db (transfer db product loc q)).shifts = db.shifts ∧
    (commit db (transfer db product loc q)).txns = db.txns ∧
    (commit db (transfer db product loc q)).payments = db.payments := by
  unfold transfer
  repeat' split
  all_goals simp only [commit, getOrCreateStorage_snd db product.id loc,
    getOrCreateDisplay_snd (getOrCreateStorage db product.id loc).2 product.id loc]
  all_goals by_cases hlt : (getOrCreateStorage db product.id loc).1.quantity < q
  all_goals simp [commit, hlt, getOrCreateStorage_snd db product.id loc,
    getOrCreateDisplay_snd (getOrCreateStorage db product.id loc).2 product.id loc]

theorem length_filter_map_le {α : Type} (l : List α) (g : α → α) (p : α → Bool)
    (hg : ∀ x, p (g x) = true → p x = true) :
    ((l.map g).filter p).length ≤ (l.filter p).length := by
  induction l with
  | nil => simp
  | cons a t ih =>
    rw [List.map_cons]
    by_cases hpa : p (g a) = true
    · rw [List.filter_cons_of_pos hpa, List.filter_cons_of_pos (hg a hpa)]
      exact Nat.succ_le_succ ih
    · rw [List.filter_cons_of_neg hpa]
      by_cases hpb : p a = true
      · rw [List.filter_cons_of_pos hpb]
        exact Nat.le_succ_of_le ih
      · rw [List.filter_cons_of_neg hpb]
        exact ih

/-- Every service operation preserves the at-most-one-open-shift-per-
location invariant. -/
theorem openShift_invariant_step (db : DB) (op : Op)
    (h : atMostOneOpenShift db) : atMostOneOpenShift (step db op) := by
  intro loc
  cases op with
  | purchaseOp product l q price supplier =>
    have hs := (purchase_tables db product l q price supplier).1
    unfold openShiftsAt
    rw [show (step db (Op.purchaseOp product l q price supplier)).shifts = db.shifts from hs]
    exact h loc
  | transferOp product l q =>
    have hs := (transfer_tables db product l q).1
    unfold openShiftsAt
    rw [show (step db (Op.transferOp product l q)).shifts = db.shifts from hs]
    exact h loc
  | saleOp shift product q m notes =>
    have hstep : step db (Op.saleOp shift product q m notes) = db :=
      commit_of_isError db _ (createSale_isError db shift product q m notes)
    rw [hstep]
    exact h loc
  | refundOp shift product q m notes =>
    have hstep : step db (Op.refundOp shift product q m notes) = db :=
      commit_of_isError db _ (createRefund_isError db shift product q m notes)
    rw [hstep]
    exact h loc
  | adjustOp shift product q notes =>
    have hstep : step db (Op.adjustOp shift product q notes) = db :=
      commit_of_isError db _ (createAdjustment_isError db shift product q notes)
    rw [hstep]
    exact h loc
  | startOp staffName l notes =>
    have hstep : step db (Op.startOp staffName l notes) =
        commit db (startShift db staffName l notes) := rfl
    rw [hstep]
    unfold startShift
    cases hfind : db.shifts.find? (fun s => s.locationId == l && s.isClosed == false) with
    | some sh =>
      exact h loc
    | none =>
      show (List.filter (fun s => s.locationId == loc && s.isClosed == false)
        (db.shifts ++
          [⟨db.nextShiftId, staffName, l, false, none, 0, 0, 0, 0, notes⟩])).length ≤ 1
      rw [List.filter_append]
      by_cases hl : l = loc
      · subst hl
        have hempty : db.shifts.filter
            (fun s => s.locationId == l && s.isClosed == false) = [] := by
          rw [List.filter_eq_nil_iff]
          intro sh hmem
          have := List.find?_eq_none.mp hfind sh hmem
          simpa using this
        rw [hempty]
        simp
      · have hone : List.filter (fun s => s.locationId == loc && s.isClosed == false)
            [(⟨db.nextShiftId, staffName, l, false, none, 0, 0, 0, 0, notes⟩ : Shift)] = [] := by
          simp [hl]
        rw [hone, List.append_nil]
        exact h loc
  | closeOp shift now counts =>
    have hstep : step db (Op.closeOp shift now counts) =
        commit db (closeShift db shift now counts) := rfl
    rw [hstep]
    unfold closeShift
    by_cases hclosed : shift.isClosed = true
    · rw [if_pos hclosed]
      exact h loc
    · rw [if_neg hclosed]
      simp only [commit_ok]
      unfold openShiftsAt
      rw [(createStockCounts_tables _ shift.id counts).1]
      refine le_trans (length_filter_map_le db.shifts _ _ ?_) (h loc)
      intro s hps
      by_cases hid : s.id == shift.id
      · rw [if_pos hid] at hps
        simp at hps
      · rw [if_neg hid] at hps
        exact hps

/-! ## C1 -/

/-- C1, counterexample: with display stock 2.00 (and storage 3.00) a sale of
qty 5.00 does *not* fail with `InsufficientStock` reporting the available
display quantity, although `display.quantity < qty`: `create_sale` compares
`qty` against the total `product.stock_quantity` (storage + display = 5),
passes that check, and instead dies at `product.update_stock`. -/
theorem createSale_display_check_counterexample :
    displayQty splitStockDB 1 1 < 5 ∧
    createSale splitStockDB annaShift beer 5 PaymentMethod.CASH "" =
      Except.error Err.attributeNoUpdateStock ∧
    createSale splitStockDB annaShift beer 5 PaymentMethod.CASH "" ≠
      Except.error (Err.insufficientStock (displayQty splitStockDB 1 1)) := by
  with_unfolding_all decide

/-- C1, amended: for an open shift, a matching active product and qty > 0,
`create_sale` fails with `InsufficientStock` — reporting the available
total `product.stock_quantity` (StorageStock + DisplayStock) — exactly
when `stock_quantity < qty`, and on that failure the whole state (hence
the DisplayStock quantity) is unchanged. -/
theorem createSale_insufficient_iff_total_stock (db : DB) (shift : Shift)
    (product : Product) (qty : ℚ) (m : PaymentMethod) (notes : String)
    (hopen : shift.isClosed = false)
    (hloc : shift.locationId = product.locationId)
    (hact : product.isActive = true)
    (hq : 0 < qty)
    (hfind : db.products.find? (fun p => p.id == product.id) = some product) :
    (createSale db shift product qty m notes =
        Except.error (Err.insufficientStock (stockQuantity db product)) ↔
      stockQuantity db product < qty) ∧
    (stockQuantity db product < qty →
      commit db (createSale db shift product qty m notes) = db) := by
  rw [createSale_stock_branch db shift product qty m notes hopen hloc hact hq hfind]
  constructor
  · constructor
    · intro h
      by_contra hc
      rw [if_neg hc] at h
      exact Err.noConfusion (Except.error.inj h)
    · intro h
      rw [if_pos h]
  · intro h
    rw [if_pos h]
    rfl

/-- C1, witness: display 2.00 and storage 0, so total stock 2.00 < 5.00;
the sale fails with `InsufficientStock 2` and changes nothing. -/
theorem createSale_insufficient_iff_total_stock_witness :
    (createSale { splitStockDB with storage := [⟨1, 1, 0, none⟩] } annaShift
        beer 5 PaymentMethod.CASH "" =
      Except.error (Err.insufficientStock
        (stockQuantity { splitStockDB with storage := [⟨1, 1, 0, none⟩] } beer)) ↔
      stockQuantity { splitStockDB with storage := [⟨1, 1, 0, none⟩] } beer < 5) ∧
    (stockQuantity { splitStockDB with storage := [⟨1, 1, 0, none⟩] } beer < 5 →
      commit { splitStockDB with storage := [⟨1, 1, 0, none⟩] }
        (createSale { splitStockDB with storage := [⟨1, 1, 0, none⟩] } annaShift
          beer 5 PaymentMethod.CASH "") =
        { splitStockDB with storage := [⟨1, 1, 0, none⟩] }) :=
  createSale_insufficient_iff_total_stock _ _ _ _ _ _ (by with_unfolding_all decide) (by with_unfolding_all decide)
    (by with_unfolding_all decide) (by with_unfolding_all decide) (by with_unfolding_all decide)

/-! ## C2 -/

/-- C2 (code bug): a sale whose arguments pass every guard — open shift,
matching active product, qty 2 ≤ stock 100 — does not succeed: the call
raises `AttributeError` at `product.update_stock(-qty)` because `Product`
defines no `update_stock` method, and the atomic block rolls back to the
original state, contradicting the claim (and the repository's own test
`test_create_sale_cash`). -/
theorem createSale_crashes_on_valid_input :
    createSale beerTestDB annaShift beer 2 PaymentMethod.CASH "" =
      Except.error Err.attributeNoUpdateStock ∧
    commit beerTestDB (createSale beerTestDB annaShift beer 2 PaymentMethod.CASH "") =
      beerTestDB := by
  with_unfolding_all decide

/-! ## C3 -/

/-- C3, counterexample: a refund of qty 1 at price 500 on an open shift
inserts nothing at all — the call fails at the missing `update_stock`
method and rolls back, so no Transaction row and no Payment row (negative
or otherwise) is stored, refuting the claimed stored amount of −500. -/
theorem createRefund_negative_sign_counterexample :
    createRefund beerTestDB annaShift beer 1 PaymentMethod.CASH "" =
      Except.error Err.attributeNoUpdateStock ∧
    (commit beerTestDB
        (createRefund beerTestDB annaShift beer 1 PaymentMethod.CASH "")).payments = [] ∧
    (commit beerTestDB
        (createRefund beerTestDB annaShift beer 1 PaymentMethod.CASH "")).txns = [] := by
  with_unfolding_all decide

/-- C3, amended: for every open shift, product (with positive price) and
qty > 0, `create_refund` *constructs* a Transaction of type REFUND and a
Payment whose amount is the positive value qty × product.price (net totals
come from explicit subtraction in the reports, not from a negative stored
sign), but the call then fails at the missing `update_stock` step and the
atomic block rolls those rows back, leaving the state unchanged. -/
theorem createRefund_positive_amount_rolled_back (db : DB) (shift : Shift)
    (product : Product) (qty : ℚ) (m : PaymentMethod) (notes : String)
    (hopen : shift.isClosed = false)
    (hq : 0 < qty)
    (hprice : 0 < product.price)
    (hfind : db.products.find? (fun p => p.id == product.id) = some product) :
    createRefund db shift product qty m notes =
      Except.error Err.attributeNoUpdateStock ∧
    commit db (createRefund db shift product qty m notes) = db ∧
    (refundPrepared db shift product qty m notes).txns =
      db.txns ++ [⟨db.nextTxnId, shift.id, product.id, TransactionType.REFUND,
        qty, product.price * qty, notes⟩] ∧
    (refundPrepared db shift product qty m notes).payments =
      db.payments ++ [⟨db.nextTxnId, m, product.price * qty⟩] ∧
    0 < product.price * qty := by
  refine ⟨createRefund_reduce db shift product qty m notes hopen hq hfind, ?_, rfl, rfl,
    mul_pos hprice hq⟩
  rw [createRefund_reduce db shift product qty m notes hopen hq hfind]
  rfl

/-- C3, witness: the amended statement at the concrete refund of qty 1. -/
theorem createRefund_positive_amount_rolled_back_witness :
    createRefund beerTestDB annaShift beer 1 PaymentMethod.CASH "" =
      Except.error Err.attributeNoUpdateStock ∧
    commit beerTestDB (createRefund beerTestDB annaShift beer 1 PaymentMethod.CASH "") =
      beerTestDB ∧
    (refundPrepared beerTestDB annaShift beer 1 PaymentMethod.CASH "").txns =
      beerTestDB.txns ++ [⟨beerTestDB.nextTxnId, annaShift.id, beer.id,
        TransactionType.REFUND, 1, beer.price * 1, ""⟩] ∧
    (refundPrepared beerTestDB annaShift beer 1 PaymentMethod.CASH "").payments =
      beerTestDB.payments ++ [⟨beerTestDB.nextTxnId, PaymentMethod.CASH, beer.price * 1⟩] ∧
    0 < beer.price * (1 : ℚ) :=
  createRefund_positive_amount_rolled_back beerTestDB annaShift beer 1
    PaymentMethod.CASH "" (by with_unfolding_all decide) (by with_unfolding_all decide) (by with_unfolding_all decide) (by with_unfolding_all decide)

/-! ## C4 -/

/-- C4: every call to `create_sale`, `create_refund` or `create_adjustment`
whose arguments pass all validation guards reaches the final
`product.update_stock` call, which raises `AttributeError` because the
`Product` model defines no such method; the atomic transaction therefore
rolls back the already inserted Transaction/Payment rows and leaves the
whole state — stock quantities included — unchanged; no such call ever
returns successfully. -/
theorem pos_mutations_never_commit (db : DB) (shift : Shift)
    (product : Product) (qty qtyAdj : ℚ) (m : PaymentMethod) (notes : String)
    (hopen : shift.isClosed = false)
    (hloc : shift.locationId = product.locationId)
    (hact : product.isActive = true)
    (hq : 0 < qty)
    (hadj : qtyAdj ≠ 0)
    (hfind : db.products.find? (fun p => p.id == product.id) = some product)
    (hstock : qty ≤ stockQuantity db product) :
    (createSale db shift product qty m notes =
        Except.error Err.attributeNoUpdateStock ∧
      commit db (createSale db shift product qty m notes) = db) ∧
    (createRefund db shift product qty m notes =
        Except.error Err.attributeNoUpdateStock ∧
      commit db (createRefund db shift product qty m notes) = db) ∧
    (createAdjustment db shift product qtyAdj notes =
        Except.error Err.attributeNoUpdateStock ∧
      commit db (createAdjustment db shift product qtyAdj notes) = db) := by
  have hsale : createSale db shift product qty m notes =
      Except.error Err.attributeNoUpdateStock := by
    rw [createSale_stock_branch db shift product qty m notes hopen hloc hact hq hfind,
      if_neg (not_lt.mpr hstock)]
  have href := createRefund_reduce db shift product qty m notes hopen hq hfind
  have hadj' := createAdjustment_reduce db shift product qtyAdj notes hopen hadj hfind
  refine ⟨⟨hsale, ?_⟩, ⟨href, ?_⟩, ⟨hadj', ?_⟩⟩
  · rw [hsale]; rfl
  · rw [href]; rfl
  · rw [hadj']; rfl

/-- C4, witness: at the test fixture, a sale of 2, a refund of 2 and an
adjustment of −3 all fail with the `AttributeError` and change nothing. -/
theorem pos_mutations_never_commit_witness :
    (createSale beerTestDB annaShift beer 2 PaymentMethod.CARD "" =
        Except.error Err.attributeNoUpdateStock ∧
      commit beerTestDB (createSale beerTestDB annaShift beer 2 PaymentMethod.CARD "") =
        beerTestDB) ∧
    (createRefund beerTestDB annaShift beer 2 PaymentMethod.CARD "" =
        Except.error Err.attributeNoUpdateStock ∧
      commit beerTestDB (createRefund beerTestDB annaShift beer 2 PaymentMethod.CARD "") =
        beerTestDB) ∧
    (createAdjustment beerTestDB annaShift beer (-3) "" =
        Except.error Err.attributeNoUpdateStock ∧
      commit beerTestDB (createAdjustment beerTestDB annaShift beer (-3) "") =
        beerTestDB) :=
  pos_mutations_never_commit beerTestDB annaShift beer 2 (-3) PaymentMethod.CARD ""
    (by with_unfolding_all decide) (by with_unfolding_all decide) (by with_unfolding_all decide) (by with_unfolding_all decide) (by with_unfolding_all decide) (by with_unfolding_all decide) (by with_unfolding_all decide)

/-! ## C5 -/

/-- C5: `start_shift` fails with `ShiftAlreadyOpen` — the error carrying
the name of the staff member who holds the open shift — whenever a
non-closed shift exists for the location, and otherwise creates a new open
shift for the given staff and location; moreover every service operation
preserves the at-most-one-non-closed-shift-per-location invariant. -/
theorem startShift_spec (db : DB) (staffName : String) (loc : Nat) (notes : String) :
    ((∃ sh ∈ db.shifts, sh.locationId = loc ∧ sh.isClosed = false) →
      ∃ holder ∈ db.shifts, holder.locationId = loc ∧ holder.isClosed = false ∧
        startShift db staffName loc notes =
          Except.error (Err.shiftAlreadyOpen holder.staffName)) ∧
    ((∀ sh ∈ db.shifts, sh.locationId = loc → sh.isClosed = true) →
      startShift db staffName loc notes = Except.ok
        { db with
            shifts := db.shifts ++
              [⟨db.nextShiftId, staffName, loc, false, none, 0, 0, 0, 0, notes⟩],
            nextShiftId := db.nextShiftId + 1 }) ∧
    (∀ op : Op, atMostOneOpenShift db → atMostOneOpenShift (step db op)) := by
  refine ⟨?_, ?_, fun op hinv => openShift_invariant_step db op hinv⟩
  · rintro ⟨sh, hmem, hl, hopen⟩
    have hsome : (db.shifts.find?
        (fun s => s.locationId == loc && s.isClosed == false)).isSome := by
      rw [List.find?_isSome]
      exact ⟨sh, hmem, by simp [hl, hopen]⟩
    obtain ⟨holder, hfind⟩ := Option.isSome_iff_exists.mp hsome
    have hmem2 := List.mem_of_find?_eq_some hfind
    have hprop := List.find?_some hfind
    simp only [Bool.and_eq_true, beq_iff_eq] at hprop
    refine ⟨holder, hmem2, hprop.1, by simpa using hprop.2, ?_⟩
    unfold startShift
    rw [hfind]
  · intro hall
    have hnone : db.shifts.find?
        (fun s => s.locationId == loc && s.isClosed == false) = none := by
      rw [List.find?_eq_none]
      intro sh hmem hcontra
      simp only [Bool.and_eq_true, beq_iff_eq] at hcontra
      have hc := hall sh hmem hcontra.1
      rw [hc] at hcontra
      simp at hcontra
    unfold startShift
    rw [hnone]

/-- C5, witness: starting a shift at the free location succeeds and keeps
the invariant; starting one at Anna's already-staffed location fails with
`ShiftAlreadyOpen` naming the holder. -/
theorem startShift_spec_witness :
    startShift noShiftDB "Anna" 1 "" = Except.ok
      { noShiftDB with
          shifts := noShiftDB.shifts ++
            [⟨noShiftDB.nextShiftId, "Anna", 1, false, none, 0, 0, 0, 0, ""⟩],
          nextShiftId := noShiftDB.nextShiftId + 1 } ∧
    atMostOneOpenShift (step noShiftDB (Op.startOp "Anna" 1 "")) ∧
    (∃ holder ∈ splitStockDB.shifts, holder.locationId = 1 ∧ holder.isClosed = false ∧
      startShift splitStockDB "Bob" 1 "" =
        Except.error (Err.shiftAlreadyOpen holder.staffName)) := by
  refine ⟨(startShift_spec noShiftDB "Anna" 1 "").2.1 ?_, ?_, ?_⟩
  · intro sh hmem
    simp [noShiftDB] at hmem
  · exact (startShift_spec noShiftDB "Anna" 1 "").2.2 (Op.startOp "Anna" 1 "")
      (by intro l; simp [noShiftDB, atMostOneOpenShift, openShiftsAt])
  · exact (startShift_spec splitStockDB "Bob" 1 "").1
      ⟨annaShift, by simp [splitStockDB], rfl, rfl⟩

/-! ## C8 -/

/-- C8: for qty > 0, `transfer` fails with `InsufficientStock` carrying the
available storage quantity — leaving the state unchanged — when the storage
quantity is below qty; otherwise it returns a state in which storage lost
qty, display (zero-defaulted if the row was missing) gained qty, and an
immutable TransferTransaction row was appended, all in one atomic commit. -/
theorem transfer_spec (db : DB) (product : Product) (loc : Nat) (qty : ℚ)
    (hq : 0 < qty) :
    (storageQty db product.id loc < qty →
      transfer db product loc qty =
        Except.error (Err.insufficientStock (storageQty db product.id loc)) ∧
      commit db (transfer db product loc qty) = db) ∧
    (qty ≤ storageQty db product.id loc →
      ∃ db', transfer db product loc qty = Except.ok db' ∧
        storageQty db' product.id loc = storageQty db product.id loc - qty ∧
        displayQty db' product.id loc = displayQty db product.id loc + qty ∧
        db'.transfers = db.transfers ++ [⟨product.id, loc, qty⟩]) := by
  have hfst : (getOrCreateStorage db product.id loc).1.quantity =
      storageQty db product.id loc := getOrCreateStorage_fst_qty db product.id loc
  constructor
  · intro hlt
    have heq : transfer db product loc qty =
        Except.error (Err.insufficientStock (storageQty db product.id loc)) := by
      simp only [transfer]
      rw [if_neg (not_le.mpr hq), if_pos (by rw [hfst]; exact hlt), hfst]
    exact ⟨heq, by rw [heq]; rfl⟩
  · intro hge
    have hnlt : ¬((getOrCreateStorage db product.id loc).1.quantity < qty) := by
      rw [hfst]
      exact not_lt.mpr hge
    have hstor2 : ((getOrCreateDisplay (getOrCreateStorage db product.id loc).2
        product.id loc).2).storage =
        ((getOrCreateStorage db product.id loc).2).storage :=
      (getOrCreateDisplay_snd (getOrCreateStorage db product.id loc).2
        product.id loc).2.1
    refine ⟨{ (getOrCreateDisplay (getOrCreateStorage db product.id loc).2
          product.id loc).2 with
        transfers := ((getOrCreateDisplay (getOrCreateStorage db product.id loc).2
          product.id loc).2).transfers ++ [⟨product.id, loc, qty⟩],
        storage := updStorageQty
          ((getOrCreateDisplay (getOrCreateStorage db product.id loc).2
            product.id loc).2).storage product.id loc (-qty),
        display := updDisplayQty
          ((getOrCreateDisplay (getOrCreateStorage db product.id loc).2
            product.id loc).2).display product.id loc qty }, ?_, ?_, ?_, ?_⟩
    · simp only [transfer]
      rw [if_neg (not_le.mpr hq), if_neg hnlt]
    · show sQty (updStorageQty
          ((getOrCreateDisplay (getOrCreateStorage db product.id loc).2
            product.id loc).2).storage product.id loc (-qty)) product.id loc =
        storageQty db product.id loc - qty
      rw [hstor2,
        sQty_updStorageQty_self _ _ _ _ _ (getOrCreateStorage_find db product.id loc)]
      have hsq : sQty ((getOrCreateStorage db product.id loc).2).storage
          product.id loc = storageQty db product.id loc := by
        unfold sQty
        rw [getOrCreateStorage_find db product.id loc]
        exact hfst
      rw [hsq]
      ring
    · show dQty (updDisplayQty
          ((getOrCreateDisplay (getOrCreateStorage db product.id loc).2
            product.id loc).2).display product.id loc qty) product.id loc =
        displayQty db product.id loc + qty
      rw [dQty_updDisplayQty_self _ _ _ _ _
          (getOrCreateDisplay_find (getOrCreateStorage db product.id loc).2
            product.id loc),
        dQty_getOrCreateDisplay,
        show ((getOrCreateStorage db product.id loc).2).display = db.display from
          (getOrCreateStorage_snd db product.id loc).2.1]
      rfl
    · show ((getOrCreateDisplay (getOrCreateStorage db product.id loc).2
          product.id loc).2).transfers ++ [⟨product.id, loc, qty⟩] =
        db.transfers ++ [⟨product.id, loc, qty⟩]
      rw [(getOrCreateDisplay_snd (getOrCreateStorage db product.id loc).2
            product.id loc).2.2.2.2.2.2,
        (getOrCreateStorage_snd db product.id loc).2.2.2.2.2.2]

/-- C8, witness: at ten units in storage and no display row, a transfer of
twenty fails with `InsufficientStock 10` and changes nothing, and a
transfer of four moves exactly four units from storage to display and logs
one TransferTransaction. -/
theorem transfer_spec_witness :
    (transfer noShiftDB beer 1 20 =
        Except.error (Err.insufficientStock (storageQty noShiftDB beer.id 1)) ∧
      commit noShiftDB (transfer noShiftDB beer 1 20) = noShiftDB) ∧
    (∃ db', transfer noShiftDB beer 1 4 = Except.ok db' ∧
      storageQty db' beer.id 1 = storageQty noShiftDB beer.id 1 - 4 ∧
      displayQty db' beer.id 1 = displayQty noShiftDB beer.id 1 + 4 ∧
      db'.transfers = noShiftDB.transfers ++ [⟨beer.id, 1, 4⟩]) :=
  ⟨(transfer_spec noShiftDB beer 1 20 (by norm_num)).1
      (by with_unfolding_all decide),
   (transfer_spec noShiftDB beer 1 4 (by norm_num)).2
      (by with_unfolding_all decide)⟩

/-! ## C7 -/

theorem methodAmt_cons (p : Payment) (rest : List Payment) (m : PaymentMethod) :
    methodAmt (p :: rest) m =
      (if p.method = m then p.amount else 0) + methodAmt rest m := by
  unfold methodAmt
  rw [List.filter_cons]
  by_cases h : p.method = m
  · rw [if_pos (by simp [h]), if_pos h, List.map_cons, List.sum_cons]
  · rw [if_neg (by simp [h]), if_neg h, zero_add]

theorem payLoop_spec (sign : Bool) (ps : List Payment) (acc : ℚ × ℚ × ℚ) :
    payLoop sign ps acc =
      (acc.1 + signFactor sign * methodAmt ps PaymentMethod.CASH,
       acc.2.1 + signFactor sign * methodAmt ps PaymentMethod.CARD,
       acc.2.2 + signFactor sign * methodAmt ps PaymentMethod.TRANSFER) := by
  induction ps generalizing acc with
  | nil => simp [payLoop, methodAmt]
  | cons p rest ih =>
    rw [show payLoop sign (p :: rest) acc = payLoop sign rest
        (match p.method with
         | PaymentMethod.CASH =>
           (acc.1 + (if sign then p.amount else -p.amount), acc.2.1, acc.2.2)
         | PaymentMethod.CARD =>
           (acc.1, acc.2.1 + (if sign then p.amount else -p.amount), acc.2.2)
         | PaymentMethod.TRANSFER =>
           (acc.1, acc.2.1, acc.2.2 + (if sign then p.amount else -p.amount)))
      from rfl, ih, methodAmt_cons, methodAmt_cons, methodAmt_cons]
    cases hm : p.method <;> cases sign <;>
      · simp only [hm, signFactor, if_true, if_false, Prod.mk.injEq,
          reduceCtorEq, ite_true, ite_false, Bool.true_eq_false, Bool.false_eq_true]
        repeat' apply And.intro
        all_goals ring

theorem txnPayLoop_spec (db : DB) (sign : Bool) (ts : List Txn) (acc : ℚ × ℚ × ℚ) :
    txnPayLoop db sign ts acc =
      (acc.1 + signFactor sign * methodSum db ts PaymentMethod.CASH,
       acc.2.1 + signFactor sign * methodSum db ts PaymentMethod.CARD,
       acc.2.2 + signFactor sign * methodSum db ts PaymentMethod.TRANSFER) := by
  induction ts generalizing acc with
  | nil => simp [txnPayLoop, methodSum]
  | cons t rest ih =>
    have hstep : txnPayLoop db sign (t :: rest) acc =
        txnPayLoop db sign rest (payLoop sign (paymentsOf db t.id) acc) := rfl
    rw [hstep, ih, payLoop_spec]
    simp only [methodSum, List.map_cons, List.sum_cons, Prod.mk.injEq]
    repeat' apply And.intro
    all_goals ring

/-- C7: `close_shift` applied to an already-closed shift fails with
`ShiftAlreadyClosed`, recomputing nothing; applied to an open shift it
stores the shift with `is_closed = true`, `closed_at` set, `total_sales`
the sum of the amounts of the shift's SALE transactions, and
`total_cash`/`total_card`/`total_transfer` the per-method sums of the
payments attached to those SALE transactions. -/
theorem closeShift_spec (db : DB) (shift : Shift) (now : Nat) :
    (shift.isClosed = true →
      closeShift db shift now [] = Except.error Err.shiftAlreadyClosed ∧
      commit db (closeShift db shift now []) = db) ∧
    (shift.isClosed = false →
      closeShift db shift now [] = Except.ok
        { db with shifts := db.shifts.map (fun s =>
            if s.id == shift.id then
              { shift with
                  isClosed := true,
                  closedAt := some now,
                  totalSales := ((saleTxnsOf db shift.id).map (fun t => t.amount)).sum,
                  totalCash := methodSum db (saleTxnsOf db shift.id) PaymentMethod.CASH,
                  totalCard := methodSum db (saleTxnsOf db shift.id) PaymentMethod.CARD,
                  totalTransfer := methodSum db (saleTxnsOf db shift.id)
                    PaymentMethod.TRANSFER }
            else s) }) := by
  constructor
  · intro hclosed
    have heq : closeShift db shift now [] = Except.error Err.shiftAlreadyClosed := by
      unfold closeShift
      rw [if_pos hclosed]
    exact ⟨heq, by rw [heq]; rfl⟩
  · intro hopen
    have h1 : closeShift db shift now [] = Except.ok
        { db with shifts := db.shifts.map (fun s =>
            if s.id == shift.id then
              { shift with
                  isClosed := true,
                  closedAt := some now,
                  totalSales := ((saleTxnsOf db shift.id).map (fun t => t.amount)).sum,
                  totalCash := (txnPayLoop db true (saleTxnsOf db shift.id) (0, 0, 0)).1,
                  totalCard := (txnPayLoop db true (saleTxnsOf db shift.id) (0, 0, 0)).2.1,
                  totalTransfer := (txnPayLoop db true (saleTxnsOf db shift.id)
                    (0, 0, 0)).2.2 }
            else s) } := by
      unfold closeShift
      rw [if_neg (by simp [hopen])]
      rfl
    rw [h1]
    simp [txnPayLoop_spec, signFactor]

/-- C7, witness: closing the already-closed shift fails and leaves the
state alone; closing Anna's open shift stores the computed totals. -/
theorem closeShift_spec_witness :
    (closeShift scenarioEDB closedAnna 7 [] = Except.error Err.shiftAlreadyClosed ∧
      commit scenarioEDB (closeShift scenarioEDB closedAnna 7 []) = scenarioEDB) ∧
    closeShift scenarioEDB annaShift 7 [] = Except.ok
      { scenarioEDB with shifts := scenarioEDB.shifts.map (fun s =>
          if s.id == annaShift.id then
            { annaShift with
                isClosed := true,
                closedAt := some 7,
                totalSales := ((saleTxnsOf scenarioEDB annaShift.id).map
                  (fun t => t.amount)).sum,
                totalCash := methodSum scenarioEDB (saleTxnsOf scenarioEDB annaShift.id)
                  PaymentMethod.CASH,
                totalCard := methodSum scenarioEDB (saleTxnsOf scenarioEDB annaShift.id)
                  PaymentMethod.CARD,
                totalTransfer := methodSum scenarioEDB
                  (saleTxnsOf scenarioEDB annaShift.id) PaymentMethod.TRANSFER }
          else s) } :=
  ⟨(closeShift_spec scenarioEDB closedAnna 7).1 rfl,
   (closeShift_spec scenarioEDB annaShift 7).2 rfl⟩

/-! ## C9 -/

/-- C9: `get_shift_summary` returns per-payment-method totals net of
refunds (sale payments added, refund payments subtracted) and
`net_total = sales_total − refunds_total`; on the Scenario E shift — one
SALE of qty 2 at price 500 paid CASH and one REFUND of qty 1 at price 500
paid CASH — it returns sales_total 1000, refunds_total 500, total_cash 500
and net_total 500. -/
theorem getShiftSummary_spec (db : DB) (shift : Shift) :
    ((getShiftSummary db shift).netTotal =
      (getShiftSummary db shift).salesTotal -
        (getShiftSummary db shift).refundsTotal ∧
    (getShiftSummary db shift).totalCash =
      methodSum db (saleTxnsOf db shift.id) PaymentMethod.CASH -
        methodSum db (refundTxnsOf db shift.id) PaymentMethod.CASH ∧
    (getShiftSummary db shift).totalCard =
      methodSum db (saleTxnsOf db shift.id) PaymentMethod.CARD -
        methodSum db (refundTxnsOf db shift.id) PaymentMethod.CARD ∧
    (getShiftSummary db shift).totalTransfer =
      methodSum db (saleTxnsOf db shift.id) PaymentMethod.TRANSFER -
        methodSum db (refundTxnsOf db shift.id) PaymentMethod.TRANSFER) ∧
    ((getShiftSummary scenarioEDB annaShift).salesTotal = 1000 ∧
    (getShiftSummary scenarioEDB annaShift).refundsTotal = 500 ∧
    (getShiftSummary scenarioEDB annaShift).totalCash = 500 ∧
    (getShiftSummary scenarioEDB annaShift).netTotal = 500) := by
  constructor
  · refine ⟨rfl, ?_, ?_, ?_⟩
    · have h : (getShiftSummary db shift).totalCash =
          (txnPayLoop db false (refundTxnsOf db shift.id)
            (txnPayLoop db true (saleTxnsOf db shift.id) (0, 0, 0))).1 := rfl
      rw [h]
      simp [txnPayLoop_spec, signFactor]
      try ring
    · have h : (getShiftSummary db shift).totalCard =
          (txnPayLoop db false (refundTxnsOf db shift.id)
            (txnPayLoop db true (saleTxnsOf db shift.id) (0, 0, 0))).2.1 := rfl
      rw [h]
      simp [txnPayLoop_spec, signFactor]
      try ring
    · have h : (getShiftSummary db shift).totalTransfer =
          (txnPayLoop db false (refundTxnsOf db shift.id)
            (txnPayLoop db true (saleTxnsOf db shift.id) (0, 0, 0))).2.2 := rfl
      rw [h]
      simp [txnPayLoop_spec, signFactor]
      try ring
  · exact ⟨by with_unfolding_all decide, by with_unfolding_all decide,
      by with_unfolding_all decide, by with_unfolding_all decide⟩

/-! ## C6 -/

theorem updFirst_nonneg_storage (l : List StorageStock) (pid loc : Nat)
    (delta : ℚ) (h : ∀ s ∈ l, 0 ≤ s.quantity)
    (h2 : ∀ r, l.find? (fun s => s.productId == pid && s.locationId == loc) =
      some r → 0 ≤ r.quantity + delta) :
    ∀ s ∈ updStorageQty l pid loc delta, 0 ≤ s.quantity := by
  intro s hs
  rcases mem_updFirst _ _ _ _ hs with h1 | ⟨y, hy, hxy⟩
  · exact h s h1
  · rw [hxy]
    exact h2 y hy

theorem updFirst_nonneg_display (l : List DisplayStock) (pid loc : Nat)
    (delta : ℚ) (h : ∀ d ∈ l, 0 ≤ d.quantity)
    (h2 : ∀ r, l.find? (fun d => d.productId == pid && d.locationId == loc) =
      some r → 0 ≤ r.quantity + delta) :
    ∀ d ∈ updDisplayQty l pid loc delta, 0 ≤ d.quantity := by
  intro d hd
  rcases mem_updFirst _ _ _ _ hd with h1 | ⟨y, hy, hxy⟩
  · exact h d h1
  · rw [hxy]
    exact h2 y hy

theorem setLastPurchasePrice_nonneg (l : List StorageStock) (pid loc : Nat)
    (price : ℚ) (h : ∀ s ∈ l, 0 ≤ s.quantity) :
    ∀ s ∈ setLastPurchasePrice l pid loc price, 0 ≤ s.quantity := by
  intro s hs
  rcases mem_updFirst _ _ _ _ hs with h1 | ⟨y, hy, hxy⟩
  · exact h s h1
  · rw [hxy]
    exact h y (List.mem_of_find?_eq_some hy)

theorem getOrCreateStorage_nonneg (db : DB) (pid loc : Nat)
    (h : ∀ s ∈ db.storage, 0 ≤ s.quantity) :
    ∀ s ∈ ((getOrCreateStorage db pid loc).2).storage, 0 ≤ s.quantity := by
  intro s hs
  rcases mem_getOrCreateStorage db pid loc s hs with h1 | h2
  · exact h s h1
  · rw [h2]

theorem getOrCreateDisplay_nonneg (db : DB) (pid loc : Nat)
    (h : ∀ d ∈ db.display, 0 ≤ d.quantity) :
    ∀ d ∈ ((getOrCreateDisplay db pid loc).2).display, 0 ≤ d.quantity := by
  intro d hd
  rcases mem_getOrCreateDisplay db pid loc d hd with h1 | h2
  · exact h d h1
  · rw [h2]

/-- C6: every service operation keeps every StorageStock and DisplayStock
quantity non-negative; a failed operation leaves the whole state unchanged;
and every adjustment — in particular one whose signed quantity would drive
the stock negative — fails. -/
theorem stocks_nonneg_invariant (db : DB) (op : Op) (h : nonnegStocks db) :
    nonnegStocks (step db op) ∧
    (∀ e, runOp op db = Except.error e → step db op = db) ∧
    (∀ (shift : Shift) (product : Product) (qty : ℚ) (notes : String),
      ∃ e, createAdjustment db shift product qty notes = Except.error e) := by
  refine ⟨?_, ?_, ?_⟩
  · cases op with
    | purchaseOp product l q price supplier =>
      have hstep : step db (Op.purchaseOp product l q price supplier) =
          commit db (purchase db product l q price supplier) := rfl
      rw [hstep]
      unfold purchase
      by_cases hq : q ≤ 0
      · rw [if_pos hq]
        exact h
      · rw [if_neg hq]
        by_cases hp : price < 0
        · rw [if_pos hp]
          exact h
        · rw [if_neg hp]
          simp only [commit_ok]
          refine ⟨?_, ?_⟩
          · intro s hs
            refine setLastPurchasePrice_nonneg _ _ _ _ ?_ s hs
            refine updFirst_nonneg_storage _ _ _ _ ?_ ?_
            · exact getOrCreateStorage_nonneg db product.id l h.1
            · intro r hr
              have hr0 := getOrCreateStorage_nonneg db product.id l h.1 r
                (List.mem_of_find?_eq_some hr)
              have hq' : 0 < q := lt_of_not_le hq
              linarith
          · intro d hd
            have hd' : d ∈ ((getOrCreateStorage db product.id l).2).display := hd
            rw [(getOrCreateStorage_snd db product.id l).2.1] at hd'
            exact h.2 d hd'
    | transferOp product l q =>
      have hstep : step db (Op.transferOp product l q) =
          commit db (transfer db product l q) := rfl
      rw [hstep]
      unfold transfer
      by_cases hq : q ≤ 0
      · rw [if_pos hq]
        exact h
      · rw [if_neg hq]
        by_cases hlt : (getOrCreateStorage db product.id l).1.quantity < q
        · rw [if_pos hlt]
          exact h
        · rw [if_neg hlt]
          simp only [commit_ok]
          refine ⟨?_, ?_⟩
          · intro s hs
            have hs' : s ∈ updStorageQty
                ((getOrCreateDisplay (getOrCreateStorage db product.id l).2
                  product.id l).2).storage product.id l (-q) := hs
            rw [(getOrCreateDisplay_snd (getOrCreateStorage db product.id l).2
              product.id l).2.1] at hs'
            refine updFirst_nonneg_storage _ _ _ _ ?_ ?_ s hs'
            · exact getOrCreateStorage_nonneg db product.id l h.1
            · intro r hr
              rw [getOrCreateStorage_find db product.id l] at hr
              obtain rfl := Option.some.inj hr
              have hge := not_lt.mp hlt
              linarith
          · intro d hd
            have hd' : d ∈ updDisplayQty
                ((getOrCreateDisplay (getOrCreateStorage db product.id l).2
                  product.id l).2).display product.id l q := hd
            refine updFirst_nonneg_display _ _ _ _ ?_ ?_ d hd'
            · refine getOrCreateDisplay_nonneg _ product.id l ?_
              intro x hx
              have hx' : x ∈ db.display := by
                rw [← (getOrCreateStorage_snd db product.id l).2.1]
                exact hx
              exact h.2 x hx'
            · intro r hr
              have hr0 : (0 : ℚ) ≤ r.quantity := by
                refine getOrCreateDisplay_nonneg
                  (getOrCreateStorage db product.id l).2 product.id l ?_ r
                  (List.mem_of_find?_eq_some hr)
                intro x hx
                have hx' : x ∈ db.display := by
                  rw [← (getOrCreateStorage_snd db product.id l).2.1]
                  exact hx
                exact h.2 x hx'
              have hq' : 0 < q := lt_of_not_le hq
              linarith
    | saleOp shift product q m notes =>
      have hstep : step db (Op.saleOp shift product q m notes) = db :=
        commit_of_isError db _ (createSale_isError db shift product q m notes)
      rw [hstep]
      exact h
    | refundOp shift product q m notes =>
      have hstep : step db (Op.refundOp shift product q m notes) = db :=
        commit_of_isError db _ (createRefund_isError db shift product q m notes)
      rw [hstep]
      exact h
    | adjustOp shift product q notes =>
      have hstep : step db (Op.adjustOp shift product q notes) = db :=
        commit_of_isError db _ (createAdjustment_isError db shift product q notes)
      rw [hstep]
      exact h
    | startOp staffName l notes =>
      have hstep : step db (Op.startOp staffName l notes) =
          commit db (startShift db staffName l notes) := rfl
      rw [hstep]
      unfold startShift
      cases hfind : db.shifts.find?
          (fun s => s.locationId == l && s.isClosed == false) with
      | some sh => exact h
      | none => exact h
    | closeOp shift now counts =>
      have hstep : step db (Op.closeOp shift now counts) =
          commit db (closeShift db shift now counts) := rfl
      rw [hstep]
      unfold closeShift
      by_cases hclosed : shift.isClosed = true
      · rw [if_pos hclosed]
        exact h
      · rw [if_neg hclosed]
        simp only [commit_ok]
        refine ⟨?_, ?_⟩
        · intro s hs
          rw [(createStockCounts_tables _ shift.id counts).2.1] at hs
          exact h.1 s hs
        · intro d hd
          rw [(createStockCounts_tables _ shift.id counts).2.2.1] at hd
          exact h.2 d hd
  · intro e he
    unfold step
    rw [he]
    rfl
  · intro shift product qty notes
    exact createAdjustment_isError db shift product qty notes

/-- C6, witness: from the non-negative test state, a transfer of four units
keeps all stocks non-negative, errors roll back, and adjustments always
fail. -/
theorem stocks_nonneg_invariant_witness :
    nonnegStocks (step beerTestDB (Op.transferOp beer 1 4)) ∧
    (∀ e, runOp (Op.transferOp beer 1 4) beerTestDB = Except.error e →
      step beerTestDB (Op.transferOp beer 1 4) = beerTestDB) ∧
    (∀ (shift : Shift) (product : Product) (qty : ℚ) (notes : String),
      ∃ e, createAdjustment beerTestDB shift product qty notes =
        Except.error e) :=
  stocks_nonneg_invariant beerTestDB (Op.transferOp beer 1 4) (by
    constructor
    · intro s hs
      simp only [beerTestDB, List.mem_singleton] at hs
      rw [hs]
      norm_num
    · intro d hd
      simp [beerTestDB] at hd)

/-! ## C10 -/

theorem totalStock_congr (db1 db2 : DB) (pid loc : Nat)
    (hs : db1.storage = db2.storage) (hd : db1.display = db2.display) :
    totalStock db1 pid loc = totalStock db2 pid loc := by
  unfold totalStock storageQty displayQty findStorage findDisplay
  rw [hs, hd]

/-- One operation moves the combined storage+display stock of any
(product, location) by exactly its conservation-ledger delta. -/
theorem totalStock_step (db : DB) (op : Op) (pid loc : Nat) :
    totalStock (step db op) pid loc =
      totalStock db pid loc + opLedgerDelta db pid loc op := by
  cases op with
  | saleOp shift product q m notes =>
    obtain ⟨e, he⟩ := createSale_isError db shift product q m notes
    have hrun : runOp (Op.saleOp shift product q m notes) db =
        createSale db shift product q m notes := rfl
    have hstep : step db (Op.saleOp shift product q m notes) = db := by
      unfold step
      rw [hrun, he]
      rfl
    have hdelta : opLedgerDelta db pid loc (Op.saleOp shift product q m notes) = 0 := by
      unfold opLedgerDelta
      rw [hrun, he]
    rw [hstep, hdelta, add_zero]
  | refundOp shift product q m notes =>
    obtain ⟨e, he⟩ := createRefund_isError db shift product q m notes
    have hrun : runOp (Op.refundOp shift product q m notes) db =
        createRefund db shift product q m notes := rfl
    have hstep : step db (Op.refundOp shift product q m notes) = db := by
      unfold step
      rw [hrun, he]
      rfl
    have hdelta : opLedgerDelta db pid loc (Op.refundOp shift product q m notes) = 0 := by
      unfold opLedgerDelta
      rw [hrun, he]
    rw [hstep, hdelta, add_zero]
  | adjustOp shift product q notes =>
    obtain ⟨e, he⟩ := createAdjustment_isError db shift product q notes
    have hrun : runOp (Op.adjustOp shift product q notes) db =
        createAdjustment db shift product q notes := rfl
    have hstep : step db (Op.adjustOp shift product q notes) = db := by
      unfold step
      rw [hrun, he]
      rfl
    have hdelta : opLedgerDelta db pid loc (Op.adjustOp shift product q notes) = 0 := by
      unfold opLedgerDelta
      rw [hrun, he]
    rw [hstep, hdelta, add_zero]
  | startOp staffName l notes =>
    have hdelta : opLedgerDelta db pid loc (Op.startOp staffName l notes) = 0 := by
      unfold opLedgerDelta
      cases hr : runOp (Op.startOp staffName l notes) db with
      | error e => rfl
      | ok d => rfl
    rw [hdelta, add_zero]
    have hstep : step db (Op.startOp staffName l notes) =
        commit db (startShift db staffName l notes) := rfl
    rw [hstep]
    unfold startShift
    cases hfind : db.shifts.find?
        (fun s => s.locationId == l && s.isClosed == false) with
    | some sh => rfl
    | none => rfl
  | closeOp shift now counts =>
    have hdelta : opLedgerDelta db pid loc (Op.closeOp shift now counts) = 0 := by
      unfold opLedgerDelta
      cases hr : runOp (Op.closeOp shift now counts) db with
      | error e => rfl
      | ok d => rfl
    rw [hdelta, add_zero]
    have hstep : step db (Op.closeOp shift now counts) =
        commit db (closeShift db shift now counts) := rfl
    rw [hstep]
    unfold closeShift
    by_cases hclosed : shift.isClosed = true
    · rw [if_pos hclosed]
      rfl
    · rw [if_neg hclosed]
      simp only [commit_ok]
      exact totalStock_congr _ db pid loc
        (createStockCounts_tables _ shift.id counts).2.1
        (createStockCounts_tables _ shift.id counts).2.2.1
  | purchaseOp product l q price supplier =>
    have hrun : runOp (Op.purchaseOp product l q price supplier) db =
        purchase db product l q price supplier := rfl
    by_cases hq : q ≤ 0
    · have herr : purchase db product l q price supplier =
          Except.error Err.invalidQuantity := by
        unfold purchase
        rw [if_pos hq]
      have hstep : step db (Op.purchaseOp product l q price supplier) = db := by
        unfold step
        rw [hrun, herr]
        rfl
      have hdelta : opLedgerDelta db pid loc
          (Op.purchaseOp product l q price supplier) = 0 := by
        unfold opLedgerDelta
        rw [hrun, herr]
      rw [hstep, hdelta, add_zero]
    · by_cases hp : price < 0
      · have herr : purchase db product l q price supplier =
            Except.error Err.invalidPrice := by
          unfold purchase
          rw [if_neg hq, if_pos hp]
        have hstep : step db (Op.purchaseOp product l q price supplier) = db := by
          unfold step
          rw [hrun, herr]
          rfl
        have hdelta : opLedgerDelta db pid loc
            (Op.purchaseOp product l q price supplier) = 0 := by
          unfold opLedgerDelta
          rw [hrun, herr]
        rw [hstep, hdelta, add_zero]
      · have hok : purchase db product l q price supplier = Except.ok
            { (getOrCreateStorage db product.id l).2 with
              purchases := ((getOrCreateStorage db product.id l).2).purchases ++
                [⟨product.id, l, q, price, q * price, supplier⟩],
              storage := setLastPurchasePrice
                (updStorageQty ((getOrCreateStorage db product.id l).2).storage
                  product.id l q) product.id l price } := by
          unfold purchase
          rw [if_neg hq, if_neg hp]
        have hstep : step db (Op.purchaseOp product l q price supplier) =
            { (getOrCreateStorage db product.id l).2 with
              purchases := ((getOrCreateStorage db product.id l).2).purchases ++
                [⟨product.id, l, q, price, q * price, supplier⟩],
              storage := setLastPurchasePrice
                (updStorageQty ((getOrCreateStorage db product.id l).2).storage
                  product.id l q) product.id l price } := by
          unfold step
          rw [hrun, hok]
          rfl
        have hdelta : opLedgerDelta db pid loc
            (Op.purchaseOp product l q price supplier) =
            if product.id = pid ∧ l = loc then q else 0 := by
          unfold opLedgerDelta
          rw [hrun, hok]
        rw [hstep, hdelta]
        show sQty (setLastPurchasePrice
            (updStorageQty ((getOrCreateStorage db product.id l).2).storage
              product.id l q) product.id l price) pid loc +
          dQty ((getOrCreateStorage db product.id l).2).display pid loc =
          (sQty db.storage pid loc + dQty db.display pid loc) +
            (if product.id = pid ∧ l = loc then q else 0)
        rw [sQty_setLastPurchasePrice,
          show ((getOrCreateStorage db product.id l).2).display = db.display from
            (getOrCreateStorage_snd db product.id l).2.1]
        by_cases hkey : product.id = pid ∧ l = loc
        · obtain ⟨rfl, rfl⟩ := hkey
          rw [if_pos ⟨rfl, rfl⟩,
            sQty_updStorageQty_self _ _ _ _ _ (getOrCreateStorage_find db product.id l),
            show sQty ((getOrCreateStorage db product.id l).2).storage product.id l =
              sQty db.storage product.id l from
              sQty_getOrCreateStorage db product.id l product.id l]
          ring
        · rw [if_neg hkey,
            sQty_updStorageQty_other _ _ _ _ _ _
              (fun hc => hkey ⟨hc.1.symm, hc.2.symm⟩),
            sQty_getOrCreateStorage db product.id l pid loc]
          ring
  | transferOp product l q =>
    have hrun : runOp (Op.transferOp product l q) db =
        transfer db product l q := rfl
    have hdelta : opLedgerDelta db pid loc (Op.transferOp product l q) = 0 := by
      unfold opLedgerDelta
      cases hr : runOp (Op.transferOp product l q) db with
      | error e => rfl
      | ok d => rfl
    rw [hdelta, add_zero]
    by_cases hq : q ≤ 0
    · have herr : transfer db product l q = Except.error Err.invalidQuantity := by
        unfold transfer
        rw [if_pos hq]
      have hstep : step db (Op.transferOp product l q) = db := by
        unfold step
        rw [hrun, herr]
        rfl
      rw [hstep]
    · by_cases hlt : (getOrCreateStorage db product.id l).1.quantity < q
      · have herr : transfer db product l q = Except.error
            (Err.insufficientStock (getOrCreateStorage db product.id l).1.quantity) := by
          unfold transfer
          rw [if_neg hq, if_pos hlt]
        have hstep : step db (Op.transferOp product l q) = db := by
          unfold step
          rw [hrun, herr]
          rfl
        rw [hstep]
      · have hok : transfer db product l q = Except.ok
            { (getOrCreateDisplay (getOrCreateStorage db product.id l).2
                product.id l).2 with
              transfers := ((getOrCreateDisplay (getOrCreateStorage db product.id l).2
                product.id l).2).transfers ++ [⟨product.id, l, q⟩],
              storage := updStorageQty
                ((getOrCreateDisplay (getOrCreateStorage db product.id l).2
                  product.id l).2).storage product.id l (-q),
              display := updDisplayQty
                ((getOrCreateDisplay (getOrCreateStorage db product.id l).2
                  product.id l).2).display product.id l q } := by
          unfold transfer
          rw [if_neg hq, if_neg hlt]
        have hstep : step db (Op.transferOp product l q) =
            { (getOrCreateDisplay (getOrCreateStorage db product.id l).2
                product.id l).2 with
              transfers := ((getOrCreateDisplay (getOrCreateStorage db product.id l).2
                product.id l).2).transfers ++ [⟨product.id, l, q⟩],
              storage := updStorageQty
                ((getOrCreateDisplay (getOrCreateStorage db product.id l).2
                  product.id l).2).storage product.id l (-q),
              display := updDisplayQty
                ((getOrCreateDisplay (getOrCreateStorage db product.id l).2
                  product.id l).2).display product.id l q } := by
          unfold step
          rw [hrun, hok]
          rfl
        rw [hstep]
        show sQty (updStorageQty
            ((getOrCreateDisplay (getOrCreateStorage db product.id l).2
              product.id l).2).storage product.id l (-q)) pid loc +
          dQty (updDisplayQty
            ((getOrCreateDisplay (getOrCreateStorage db product.id l).2
              product.id l).2).display product.id l q) pid loc =
          sQty db.storage pid loc + dQty db.display pid loc
        rw [show ((getOrCreateDisplay (getOrCreateStorage db product.id l).2
            product.id l).2).storage =
            ((getOrCreateStorage db product.id l).2).storage from
          (getOrCreateDisplay_snd (getOrCreateStorage db product.id l).2
            product.id l).2.1]
        by_cases hkey : product.id = pid ∧ l = loc
        · obtain ⟨rfl, rfl⟩ := hkey
          rw [sQty_updStorageQty_self _ _ _ _ _
              (getOrCreateStorage_find db product.id l),
            show sQty ((getOrCreateStorage db product.id l).2).storage product.id l =
              sQty db.storage product.id l from
              sQty_getOrCreateStorage db product.id l product.id l,
            dQty_updDisplayQty_self _ _ _ _ _
              (getOrCreateDisplay_find (getOrCreateStorage db product.id l).2
                product.id l),
            dQty_getOrCreateDisplay,
            show ((getOrCreateStorage db product.id l).2).display = db.display from
              (getOrCreateStorage_snd db product.id l).2.1]
          ring
        · rw [sQty_updStorageQty_other _ _ _ _ _ _
              (fun hc => hkey ⟨hc.1.symm, hc.2.symm⟩),
            sQty_getOrCreateStorage db product.id l pid loc,
            dQty_updDisplayQty_other _ _ _ _ _ _
              (fun hc => hkey ⟨hc.1.symm, hc.2.symm⟩),
            dQty_getOrCreateDisplay,
            show ((getOrCreateStorage db product.id l).2).display = db.display from
              (getOrCreateStorage_snd db product.id l).2.1]

/-- C10: starting from zero stock for a (product, location), after any
sequence of operations the combined StorageStock + DisplayStock quantity
equals the conservation ledger of the successful operations — purchases and
refunds count +qty, sales −qty, adjustments their signed qty, and every
transfer (and failed operation) contributes zero. -/
theorem stock_conservation (db : DB) (pid loc : Nat) (ops : List Op)
    (h0 : totalStock db pid loc = 0) :
    totalStock (runOps db ops) pid loc = ledgerSum db pid loc ops := by
  have main : ∀ (l : List Op) (d : DB), totalStock (runOps d l) pid loc =
      totalStock d pid loc + ledgerSum d pid loc l := by
    intro l
    induction l with
    | nil =>
      intro d
      simp [runOps, ledgerSum]
    | cons o rest ih =>
      intro d
      have hfold : runOps d (o :: rest) = runOps (step d o) rest := rfl
      rw [hfold, ih, totalStock_step, ledgerSum]
      ring
  rw [main ops db, h0, zero_add]

/-- C10, witness: from no stock rows, a purchase of ten then a transfer of
four leave storage+display equal to the ledger sum (ten). -/
theorem stock_conservation_witness :
    totalStock (runOps zeroStockDB
        [Op.purchaseOp beer 1 10 400 "", Op.transferOp beer 1 4]) 1 1 =
      ledgerSum zeroStockDB 1 1
        [Op.purchaseOp beer 1 10 400 "", Op.transferOp beer 1 4] :=
  stock_conservation zeroStockDB 1 1
    [Op.purchaseOp beer 1 10 400 "", Op.transferOp beer 1 4]
    (by with_unfolding_all decide)

end InventoryBot
